import Mathlib

/-! Thermostat control loop (`Mills_Final/gpiointerrupt.c`)

A shallow embedding of the cooperative scheduler and of its three task
functions (`adjustSetPointTemperature`, `getAmbientTemperature`,
`setHeatMode`), of the two button callbacks, and of `readTemp`.

* C `int`, `int16_t` and `unsigned long` values are integers; every store
  into a narrower type goes through an explicit two's-complement wrap.
* The file-scope variables of the program are the fields of `Globals`.
  The two output devices (UART and the LED pin) are append-only logs.
* The outcome of `I2C_transfer` is an input of the model (`I2CResult`).
-/

namespace GpioInterrupt

/-! ## Machine integers -/

/-- Conversion of an integer to `int16_t` (two's complement, 16 bits). -/
def toInt16 (x : Int) : Int := (x + 32768) % 65536 - 32768

/-- Conversion of an integer to `int` (two's complement, 32 bits). -/
def toInt32 (x : Int) : Int := (x + 2147483648) % 4294967296 - 2147483648

/-- Conversion of a natural number to `unsigned long` (32 bits on the target). -/
def toULong (x : Nat) : Nat := x % 4294967296

/-- The bit pattern of an `int` operand, as an unsigned 32-bit number. -/
def bits32 (x : Int) : Nat := (x % 4294967296).toNat

/-- Bitwise OR of two `int` operands (`a | b`). -/
def orInt (a b : Int) : Int := toInt32 (Int.ofNat (bits32 a ||| bits32 b))

/-- The assignment `t *= 0.0078125` on an `int16_t`: the product with
`1/128` is exact in `double`, and the conversion back to the integer type
drops the fraction (rounds toward zero). -/
def scaleLsb (t : Int) : Int :=
  toInt16 (if 0 ≤ t then t / 128 else -((-t) / 128))

/-! ## Constants and enumerations -/

def timerPeriod : Nat := 100
def numTasks : Nat := 3
def checkButtonPeriod : Nat := 200
def checkTemperaturePeriod : Nat := 500
def HeatAndServerPeriod : Nat := 1000

-- enum Button_States {Increase_Temperature, Decrease_Temperature, Button_INIT}
def Increase_Temperature : Int := 0
def Decrease_Temperature : Int := 1
def Button_INIT : Int := 2

-- enum Temperature_Sensor_States {Read_Temperature, Temperature_Sensor_INIT}
def Read_Temperature : Int := 0
def Temperature_Sensor_INIT : Int := 1

-- enum Heating_States {HEAT_OFF, HEAT_ON, HEAT_INIT}
def HEAT_OFF : Int := 0
def HEAT_ON : Int := 1
def HEAT_INIT : Int := 2

/-- The two levels written to `CONFIG_GPIO_LED_0`; their numeric values come
from the generated board header and are left symbolic. -/
inductive LedLevel where
  | CONFIG_GPIO_LED_ON
  | CONFIG_GPIO_LED_OFF
deriving DecidableEq, Repr

/-! ## Formatted output -/

/-- One call `DISPLAY(snprintf(output, 64, ...))`: `data` is what `snprintf`
leaves in the 64-byte buffer `output` (at most 63 characters before the
terminating NUL), `count` is the byte count handed to `UART_write`, which is
the length `snprintf` returns (the length of the untruncated text). -/
structure UartWrite where
  data : List Char
  count : Nat
deriving DecidableEq, Repr

/-- The macro `DISPLAY(x)` applied to `snprintf(output, 64, text)`. -/
def DISPLAY (text : List Char) : UartWrite :=
  { data := text.take 63, count := text.length }

/-- Conversion `%0Wd` of `printf` (`W = 0` gives plain `%d`): a minus sign
for a negative value, then zeros up to the total width `W`, then the decimal
digits. -/
def fmtD (width : Nat) (v : Int) : List Char :=
  let ds := Nat.toDigits 10 v.natAbs
  if v < 0 then '-' :: (List.replicate (width - 1 - ds.length) '0' ++ ds)
  else List.replicate (width - ds.length) '0' ++ ds

/-- The text of `"<%02d,%02d,%d,%04d>"`, the report without its line end. -/
def reportText (ambient setPt state secs : Int) : List Char :=
  '<' :: (fmtD 2 ambient ++ ',' :: (fmtD 2 setPt ++ ',' :: (fmtD 0 state ++
    ',' :: (fmtD 4 secs ++ ['>']))))

/-- The text of `"<%02d,%02d,%d,%04d>\n\r"`. -/
def reportLine (ambient setPt state secs : Int) : List Char :=
  reportText ambient setPt state secs ++ ['\n', '\r']

/-- The text of `"Error reading temperature sensor (%d)\n\r"`. -/
def errorLine (status : Int) : List Char :=
  "Error reading temperature sensor (".toList ++ fmtD 0 status ++ [')', '\n', '\r']

/-- The text of the second diagnostic line of `readTemp`. -/
def powerCycleLine : List Char :=
  "Please power cycle your board by unplugging USB and plugging back in.".toList
    ++ ['\n', '\r']

/-! ## Program state -/

/-- The file-scope variables the tasks and callbacks use, with the two
output devices as logs (oldest entry first). -/
structure Globals where
  Button_State : Int
  ambientTemperature : Int
  setPoint : Int
  seconds : Int
  uart : List UartWrite
  led : List LedLevel
deriving DecidableEq, Repr

/-- The result of one `I2C_transfer(i2c, &i2cTransaction)` with
`readCount = 2`: either success with the two bytes received into
`rxBuffer`, or failure with the value of `i2cTransaction.status`. -/
inductive I2CResult where
  | ok (b0 b1 : Nat)
  | fail (status : Int)
deriving DecidableEq, Repr

/-! ## Callbacks -/

def gpioIncreaseTemperatureCallback (g : Globals) : Globals :=
  { g with Button_State := Increase_Temperature }

def gpioDecreaseTemperatureCallback (g : Globals) : Globals :=
  { g with Button_State := Decrease_Temperature }

/-! ## Task functions -/

def adjustSetPointTemperature (state : Int) (g : Globals) : Int × Globals :=
  let g1 : Globals :=
    if state = Increase_Temperature then
      let g0 := if g.setPoint < 99 then { g with setPoint := toInt16 (g.setPoint + 1) } else g
      { g0 with Button_State := Button_INIT }
    else if state = Decrease_Temperature then
      let g0 := if g.setPoint > 0 then { g with setPoint := toInt16 (g.setPoint - 1) } else g
      { g0 with Button_State := Button_INIT }
    else g
  (g1.Button_State, g1)

def readTemp (io : I2CResult) (g : Globals) : Int × Globals :=
  match io with
  | .ok b0 b1 =>
    let rx0 : Nat := b0 % 256
    let rx1 : Nat := b1 % 256
    let raw : Int := toInt16 (Int.ofNat ((rx0 <<< 8) ||| rx1))
    let temperature : Int := scaleLsb raw
    if rx0 &&& 0x80 ≠ 0 then (toInt16 (orInt temperature 0xF000), g)
    else (temperature, g)
  | .fail status =>
    (0, { g with uart := g.uart ++ [DISPLAY (errorLine status), DISPLAY powerCycleLine] })

def getAmbientTemperature (io : I2CResult) (state : Int) (g : Globals) : Int × Globals :=
  if state = Temperature_Sensor_INIT then (Read_Temperature, g)
  else if state = Read_Temperature then
    let r := readTemp io g
    (state, { r.2 with ambientTemperature := r.1 })
  else (state, g)

def setHeatMode (state : Int) (g : Globals) : Int × Globals :=
  let r : Int × Globals :=
    if g.seconds ≠ 0 then
      let d : Int × Globals :=
        if g.ambientTemperature < g.setPoint then
          (HEAT_ON, { g with led := g.led ++ [LedLevel.CONFIG_GPIO_LED_ON] })
        else
          (HEAT_OFF, { g with led := g.led ++ [LedLevel.CONFIG_GPIO_LED_OFF] })
      (d.1, { d.2 with uart := d.2.uart ++
        [DISPLAY (reportLine d.2.ambientTemperature d.2.setPoint d.1 d.2.seconds)] })
    else (state, g)
  (r.1, { r.2 with seconds := toInt32 (r.2.seconds + 1) })

/-! ## Scheduler -/

/-- A task function `int (*tickFunction)(int)`; the outcome of the sensor
transfer that may happen during the call is passed in. -/
abbrev TickFunction := I2CResult → Int → Globals → Int × Globals

structure task where
  state : Int
  period : Nat
  elapsedTime : Nat
  tickFunction : TickFunction

/-- The scheduler with the globals it runs on. `calls` records, oldest
first, the index of every task whose `tickFunction` has been invoked. -/
structure System where
  tasks : List task
  g : Globals
  calls : List Nat

/-- The task list built at the top of `mainThread`. -/
def initialTasks : List task :=
  [ { state := Button_INIT, period := checkButtonPeriod,
      elapsedTime := checkButtonPeriod,
      tickFunction := fun _ => adjustSetPointTemperature },
    { state := Temperature_Sensor_INIT, period := checkTemperaturePeriod,
      elapsedTime := checkTemperaturePeriod,
      tickFunction := getAmbientTemperature },
    { state := HEAT_INIT, period := HeatAndServerPeriod,
      elapsedTime := HeatAndServerPeriod,
      tickFunction := fun _ => setHeatMode } ]

/-- The globals when the scheduler loop is entered: the initialisers of the
file-scope variables, `Button_State = Button_INIT` from `initGPIO`, and
empty logs (output of the initialisation functions is not recorded). -/
def initialGlobals : Globals :=
  { Button_State := Button_INIT, ambientTemperature := 0, setPoint := 20,
    seconds := 0, uart := [], led := [] }

def startup : System :=
  { tasks := initialTasks, g := initialGlobals, calls := [] }

/-- The body of the `for` loop for the task at index `i`. -/
def tickTask (io : I2CResult) (i : Nat) (t : task) (g : Globals) (calls : List Nat) :
    task × Globals × List Nat :=
  if t.elapsedTime ≥ t.period then
    let r := t.tickFunction io t.state g
    ({ t with state := r.1, elapsedTime := toULong (0 + timerPeriod) }, r.2, calls ++ [i])
  else
    ({ t with elapsedTime := toULong (t.elapsedTime + timerPeriod) }, g, calls)

/-- The `for (i = 0; i < numTasks; ++i)` loop from index `i` on. -/
def forTasks (io : I2CResult) : Nat → List task → Globals → List Nat →
    List task × Globals × List Nat
  | _, [], g, calls => ([], g, calls)
  | i, t :: ts, g, calls =>
    let r := tickTask io i t g calls
    let rest := forTasks io (i + 1) ts r.2.1 r.2.2
    (r.1 :: rest.1, rest.2.1, rest.2.2)

/-- One execution of the body of `while (1)`: every task is examined once. -/
def loopBody (io : I2CResult) (s : System) : System :=
  let r := forTasks io 0 s.tasks s.g s.calls
  { tasks := r.1, g := r.2.1, calls := r.2.2 }

/-- What can happen to the system: a button interrupt, or one execution of
the scheduler loop body (with the outcome of the sensor transfer, should the
Temperature task perform one). -/
inductive Event where
  | increaseButton
  | decreaseButton
  | tick (io : I2CResult)
deriving DecidableEq, Repr

def Event.isTick : Event → Bool
  | .tick _ => true
  | _ => false

def step (s : System) : Event → System
  | .increaseButton => { s with g := gpioIncreaseTemperatureCallback s.g }
  | .decreaseButton => { s with g := gpioDecreaseTemperatureCallback s.g }
  | .tick io => loopBody io s

/-- The system after the events of `evs`, in order. -/
def run (s : System) (evs : List Event) : System := evs.foldl step s

/-- Number of executions of the loop body among `evs`. -/
def ticks (evs : List Event) : Nat := (evs.filter Event.isTick).length

/-! ## Event sequences of single tasks -/

/-- What the Set-Point task can meet: a button interrupt, or one invocation
of its step `state = adjustSetPointTemperature(state)` on the state the task
stores. Each event is atomic. -/
inductive SetPointEvent where
  | increaseIrq
  | decreaseIrq
  | invoke
deriving DecidableEq, Repr

/-- One event on the pair (stored task state, globals). -/
def setPointStep (p : Int × Globals) : SetPointEvent → Int × Globals
  | .increaseIrq => (p.1, gpioIncreaseTemperatureCallback p.2)
  | .decreaseIrq => (p.1, gpioDecreaseTemperatureCallback p.2)
  | .invoke => adjustSetPointTemperature p.1 p.2

/-- The pair (stored task state, globals) after the events of `evs`, in order. -/
def setPointRun (p : Int × Globals) (evs : List SetPointEvent) : Int × Globals :=
  evs.foldl setPointStep p

/-- Successive invocations of the Temperature step, each on the state the
previous one returned, with the given transfer outcomes. -/
def temperatureRun (p : Int × Globals) (ios : List I2CResult) : Int × Globals :=
  ios.foldl (fun q io => getAmbientTemperature io q.1 q.2) p

/-- Successive invocations of the Heat-Mode step. Each entry gives the state
passed in and the ambient temperature and set-point in force at that
invocation (the other tasks may have changed them in between). -/
def heatRun (g : Globals) : List (Int × Int × Int) → Globals
  | [] => g
  | (st, a, sp) :: rest =>
    heatRun (setHeatMode st { g with ambientTemperature := a, setPoint := sp }).2 rest

/-- The reports of successive Heat-Mode invocations whose elapsed fields
count up from `m`, one per entry. -/
def reportsFrom (m : Int) : List (Int × Int × Int) → List UartWrite
  | [] => []
  | (_, a, sp) :: rest =>
    DISPLAY (reportLine a sp (if a < sp then HEAT_ON else HEAT_OFF) m)
      :: reportsFrom (m + 1) rest

/-- A run of twenty executions of the loop body that ends with a latched
Increase at set-point 18: two Decrease presses (latched in executions 2 and
6, applied in 4 and 8) and one Increase press latched in execution 18. -/
def latchedIncreaseRun : List Event :=
  List.replicate 2 (Event.tick (.ok 9 0)) ++ [Event.decreaseButton]
    ++ List.replicate 4 (Event.tick (.ok 9 0)) ++ [Event.decreaseButton]
    ++ List.replicate 12 (Event.tick (.ok 9 0)) ++ [Event.increaseButton]
    ++ List.replicate 2 (Event.tick (.ok 9 0))

/-! ## Decodings and record layout named by the specification -/

/-- The decoding of a negative reading in the order the specification's test
gives it: OR the raw 16-bit register value with `0xF000`, read the result as a
signed 16-bit integer, then scale by 1/128. -/
def decodeOrThenScale (hi lo : Nat) : Int :=
  Int.tdiv (toInt16 (Int.ofNat ((256 * hi + lo) ||| 0xF000))) 128

/-- The decoding of a reading whose top bit is set, in the opposite order:
read the raw register value as a signed 16-bit integer (it is
`256 * hi + lo - 65536`), scale by 1/128 dropping the fraction, then OR the
16-bit pattern of the quotient with `0xF000` and read it as a signed 16-bit
integer again (the top bit is then set). -/
def decodeScaleThenOr (hi lo : Nat) : Int :=
  let q : Int := Int.tdiv ((256 * hi + lo : Nat) - 65536) 128
  Int.ofNat ((q % 65536).toNat ||| 0xF000) - 65536

/-- The fixed-width record `<AA,SS,H,EEEE>`: two digits, two digits, one
digit and four digits, separated by commas, between angle brackets. -/
def fixedRecord (a s h e : Nat) : List Char :=
  ['<', Nat.digitChar (a / 10), Nat.digitChar (a % 10), ',',
   Nat.digitChar (s / 10), Nat.digitChar (s % 10), ',',
   Nat.digitChar h, ',',
   Nat.digitChar (e / 1000), Nat.digitChar (e / 100 % 10), Nat.digitChar (e / 10 % 10),
   Nat.digitChar (e % 10), '>']

/-! ## Proof devices -/

/-- The task list after `k` executions of the loop body: the three tasks of
`mainThread` with their periods and functions, some task states, and every
`elapsedTime` determined by `k`. -/
def TasksAfter (k : Nat) (ts : List task) : Prop :=
  ∃ s0 s1 s2 : Int, ts =
    [ { state := s0, period := 200, elapsedTime := 100 * ((k + 1) % 2) + 100,
        tickFunction := fun _ => adjustSetPointTemperature },
      { state := s1, period := 500, elapsedTime := 100 * ((k + 4) % 5) + 100,
        tickFunction := getAmbientTemperature },
      { state := s2, period := 1000, elapsedTime := 100 * ((k + 9) % 10) + 100,
        tickFunction := fun _ => setHeatMode } ]

/-- The task list before execution number `k` of the loop body (counted from
0) when the three tasks store the states `s0`, `s1` and `s2`. -/
def tasksAt (k : Nat) (s0 s1 s2 : Int) : List task :=
  [ { state := s0, period := 200, elapsedTime := 100 * ((k + 1) % 2) + 100,
      tickFunction := fun _ => adjustSetPointTemperature },
    { state := s1, period := 500, elapsedTime := 100 * ((k + 4) % 5) + 100,
      tickFunction := getAmbientTemperature },
    { state := s2, period := 1000, elapsedTime := 100 * ((k + 9) % 10) + 100,
      tickFunction := fun _ => setHeatMode } ]

/-- The tasks whose function the loop body invokes in its execution number
`k` (counted from 0), in the order of invocation. -/
def dueAt (k : Nat) : List Nat :=
  (if k % 2 = 0 then [0] else []) ++ (if k % 5 = 0 then [1] else [])
    ++ (if k % 10 = 0 then [2] else [])

/-! ## Basic facts about the task functions -/

theorem toInt16_of_range (x : Int) (h1 : -32768 ≤ x) (h2 : x ≤ 32767) : toInt16 x = x := by
  unfold toInt16; omega

theorem toInt32_of_range (x : Int) (h1 : -2147483648 ≤ x) (h2 : x ≤ 2147483647) :
    toInt32 x = x := by
  unfold toInt32; omega

/-- The set-point after one Set-Point step, by cases on the incoming state. -/
theorem adjust_setPoint (state : Int) (g : Globals) :
    (adjustSetPointTemperature state g).2.setPoint =
      if state = 0 then
        (if g.setPoint < 99 then toInt16 (g.setPoint + 1) else g.setPoint)
      else if state = 1 then
        (if g.setPoint > 0 then toInt16 (g.setPoint - 1) else g.setPoint)
      else g.setPoint := by
  simp only [adjustSetPointTemperature, Increase_Temperature, Decrease_Temperature]
  split_ifs <;> rfl

/-- The pending intent after one Set-Point step. -/
theorem adjust_Button_State (state : Int) (g : Globals) :
    (adjustSetPointTemperature state g).2.Button_State =
      if state = 0 ∨ state = 1 then Button_INIT else g.Button_State := by
  simp only [adjustSetPointTemperature, Increase_Temperature, Decrease_Temperature]
  split_ifs <;> simp_all

/-- The Set-Point step returns the pending intent it leaves behind. -/
theorem adjust_fst (state : Int) (g : Globals) :
    (adjustSetPointTemperature state g).1
      = (adjustSetPointTemperature state g).2.Button_State := rfl

/-- The Set-Point step keeps a set-point of [0, 99] within [0, 99]. -/
theorem adjust_setPoint_range (state : Int) (g : Globals)
    (h : 0 ≤ g.setPoint ∧ g.setPoint ≤ 99) :
    0 ≤ (adjustSetPointTemperature state g).2.setPoint
      ∧ (adjustSetPointTemperature state g).2.setPoint ≤ 99 := by
  rw [adjust_setPoint]
  unfold toInt16
  split_ifs <;> omega

/-! ## Set-point task -/

/-- C1 (as stated, refuted): from the startup globals (set-point 20, no
pending intent, task state `Button_INIT`), one Increase interrupt followed by
one invocation of the Set-Point step leaves the set-point at 20, not at
`min 99 (20 + 1)`, and leaves `Button_State` at `Increase_Temperature`, not
at `Button_INIT`. -/
theorem C1_one_invocation_does_not_apply :
    (adjustSetPointTemperature Button_INIT
        (gpioIncreaseTemperatureCallback initialGlobals)).2.setPoint = 20
    ∧ (adjustSetPointTemperature Button_INIT
        (gpioIncreaseTemperatureCallback initialGlobals)).2.setPoint ≠ min 99 (20 + 1)
    ∧ (adjustSetPointTemperature Button_INIT
        (gpioIncreaseTemperatureCallback initialGlobals)).2.Button_State
          = Increase_Temperature
    ∧ (adjustSetPointTemperature Button_INIT
        (gpioIncreaseTemperatureCallback initialGlobals)).2.Button_State ≠ Button_INIT := by
  decide

/-- C1 (amended): for every set-point in [0, 99], from task state
`Button_INIT` (with or without an earlier pending intent), one Increase
interrupt followed by two
consecutive invocations of the Set-Point step (each applied to the state the
task stores) yields `min 99 (setPoint + 1)` and leaves `Button_State` at
`Button_INIT`; the first of the two returns `Increase_Temperature` and
changes neither the set-point nor the pending intent. -/
theorem C1_increase_applied_by_second_invocation (g : Globals)
    (hlo : 0 ≤ g.setPoint) (hhi : g.setPoint ≤ 99) :
    let r1 := adjustSetPointTemperature Button_INIT (gpioIncreaseTemperatureCallback g)
    let r2 := adjustSetPointTemperature r1.1 r1.2
    r1.1 = Increase_Temperature
    ∧ r1.2 = gpioIncreaseTemperatureCallback g
    ∧ r1.2.setPoint = g.setPoint
    ∧ r1.2.Button_State = Increase_Temperature
    ∧ r2.2.setPoint = min 99 (g.setPoint + 1)
    ∧ r2.2.Button_State = Button_INIT
    ∧ r2.1 = Button_INIT := by
  have e1 : adjustSetPointTemperature Button_INIT (gpioIncreaseTemperatureCallback g)
      = (Increase_Temperature, gpioIncreaseTemperatureCallback g) := by
    simp [adjustSetPointTemperature, gpioIncreaseTemperatureCallback,
      Increase_Temperature, Decrease_Temperature, Button_INIT]
  simp only [e1]
  by_cases h : g.setPoint < 99
  · simp [adjustSetPointTemperature, gpioIncreaseTemperatureCallback,
      Increase_Temperature, Button_INIT, toInt16, h]
    omega
  · simp [adjustSetPointTemperature, gpioIncreaseTemperatureCallback,
      Increase_Temperature, Button_INIT, toInt16, h]
    omega

/-- C1 witness: the amended statement at the startup globals (20 becomes 21). -/
theorem C1_increase_applied_by_second_invocation_witness :
    (adjustSetPointTemperature
        (adjustSetPointTemperature Button_INIT
          (gpioIncreaseTemperatureCallback initialGlobals)).1
        (adjustSetPointTemperature Button_INIT
          (gpioIncreaseTemperatureCallback initialGlobals)).2).2.setPoint = 21 :=
  (C1_increase_applied_by_second_invocation initialGlobals (by decide)
    (by decide)).2.2.2.2.1

/-! ## Temperature task: failed transfer -/

/-- C2 (as stated, refuted): with a prior ambient temperature of 18, a Read
invocation whose sensor transfer fails leaves the ambient temperature at 0,
not at 18. -/
theorem C2_failed_read_overwrites_ambient :
    (getAmbientTemperature (.fail (-1)) Read_Temperature
        { initialGlobals with ambientTemperature := 18 }).2.ambientTemperature = 0
    ∧ (getAmbientTemperature (.fail (-1)) Read_Temperature
        { initialGlobals with ambientTemperature := 18 }).2.ambientTemperature
        ≠ ({ initialGlobals with ambientTemperature := 18 } : Globals).ambientTemperature := by
  decide

/-- C2 (amended): for every prior state and every failure status, a Read
invocation whose sensor transfer fails stores 0 (the value `readTemp` returns
without a reading) in `ambientTemperature`; it emits the two diagnostic lines,
changes nothing else and returns `Read_Temperature`. -/
theorem C2_failed_read_sets_ambient_zero (g : Globals) (status : Int) :
    getAmbientTemperature (.fail status) Read_Temperature g
      = (Read_Temperature,
          { g with ambientTemperature := 0,
                   uart := g.uart ++ [DISPLAY (errorLine status), DISPLAY powerCycleLine] }) := by
  simp [getAmbientTemperature, readTemp, Read_Temperature, Temperature_Sensor_INIT]

/-! ## Set-point task: saturation -/

/-- C6: for every incoming task state and every pending intent, a Set-Point
invocation at set-point 99 never leaves [0, 99] and keeps 99 whenever the
step is applying an Increase (indeed whenever it is not applying a
Decrease); at set-point 0 it never leaves [0, 99] and keeps 0 whenever it is
applying a Decrease (indeed whenever it is not applying an Increase). -/
theorem C6_set_point_saturates (state : Int) (g : Globals) :
    (g.setPoint = 99 →
      (adjustSetPointTemperature Increase_Temperature g).2.setPoint = 99
      ∧ (state ≠ Decrease_Temperature →
          (adjustSetPointTemperature state g).2.setPoint = 99)
      ∧ 0 ≤ (adjustSetPointTemperature state g).2.setPoint
      ∧ (adjustSetPointTemperature state g).2.setPoint ≤ 99)
    ∧ (g.setPoint = 0 →
      (adjustSetPointTemperature Decrease_Temperature g).2.setPoint = 0
      ∧ (state ≠ Increase_Temperature →
          (adjustSetPointTemperature state g).2.setPoint = 0)
      ∧ 0 ≤ (adjustSetPointTemperature state g).2.setPoint
      ∧ (adjustSetPointTemperature state g).2.setPoint ≤ 99) := by
  simp only [adjust_setPoint, Increase_Temperature, Decrease_Temperature, toInt16]
  constructor
  · intro h
    rw [h]
    split_ifs <;> simp_all
  · intro h
    rw [h]
    split_ifs <;> simp_all

/-- C6 witness: at set-point 99 with an Increase being applied, and at
set-point 0 with a Decrease being applied, the set-point stays put. -/
theorem C6_set_point_saturates_witness :
    (adjustSetPointTemperature Increase_Temperature
        { initialGlobals with setPoint := 99 }).2.setPoint = 99
    ∧ (adjustSetPointTemperature Decrease_Temperature
        { initialGlobals with setPoint := 0 }).2.setPoint = 0 :=
  ⟨((C6_set_point_saturates Increase_Temperature
      { initialGlobals with setPoint := 99 }).1 rfl).1,
   ((C6_set_point_saturates Decrease_Temperature
      { initialGlobals with setPoint := 0 }).2 rfl).1⟩

/-! ## Heat-mode task -/

/-- C3 (as stated, refuted): at `seconds = 2147483647`, the largest `int`,
the counter after the step is not `seconds + 1` (no `int` holds that value;
the increment wraps to `-2147483648`). -/
theorem C3_seconds_increment_wraps_at_int_max :
    (setHeatMode HEAT_INIT { initialGlobals with seconds := 2147483647 }).2.seconds
        = -2147483648
    ∧ (setHeatMode HEAT_INIT { initialGlobals with seconds := 2147483647 }).2.seconds
        ≠ 2147483647 + 1 := by
  decide

/-- C3 (amended): for every set-point, ambient temperature and incoming
state, and every `seconds` other than 0 and below the largest `int`, one
Heat-Mode step returns `HEAT_ON` and writes the LED on when
`ambientTemperature < setPoint`, otherwise returns `HEAT_OFF` and writes the
LED off; it sends exactly one report, the format `"<%02d,%02d,%d,%04d>\n\r"`
applied to the ambient temperature, the set-point, the new heat state and
`seconds` at entry; it increases `seconds` by exactly one and changes nothing
else. -/
theorem C3_heat_mode_step (state : Int) (g : Globals) (hne : g.seconds ≠ 0)
    (hlo : -2147483648 ≤ g.seconds) (hhi : g.seconds < 2147483647) :
    setHeatMode state g =
      if g.ambientTemperature < g.setPoint then
        (HEAT_ON,
          { g with
            led := g.led ++ [LedLevel.CONFIG_GPIO_LED_ON],
            uart := g.uart ++
              [DISPLAY (reportLine g.ambientTemperature g.setPoint HEAT_ON g.seconds)],
            seconds := g.seconds + 1 })
      else
        (HEAT_OFF,
          { g with
            led := g.led ++ [LedLevel.CONFIG_GPIO_LED_OFF],
            uart := g.uart ++
              [DISPLAY (reportLine g.ambientTemperature g.setPoint HEAT_OFF g.seconds)],
            seconds := g.seconds + 1 }) := by
  have hw : toInt32 (g.seconds + 1) = g.seconds + 1 :=
    toInt32_of_range _ (by omega) (by omega)
  unfold setHeatMode
  split_ifs <;> simp [hw]

/-- C3 witness: set-point 20, ambient 18, `seconds = 3` gives `HEAT_ON`, the
LED written on, the report `<18,20,1,0003>` and `seconds = 4`. -/
theorem C3_heat_mode_step_witness :
    setHeatMode HEAT_INIT { initialGlobals with ambientTemperature := 18, seconds := 3 }
      = (1, { Button_State := Button_INIT, ambientTemperature := 18, setPoint := 20,
              seconds := 4,
              uart := [{ data := "<18,20,1,0003>\n\r".toList, count := 16 }],
              led := [LedLevel.CONFIG_GPIO_LED_ON] }) :=
  (C3_heat_mode_step HEAT_INIT { initialGlobals with ambientTemperature := 18, seconds := 3 }
    (by decide) (by decide) (by decide)).trans (by decide)

/-- C4: for every set-point, ambient temperature and incoming state, a
Heat-Mode step entered with `seconds = 0` sends no report, writes nothing to
the LED, returns the incoming state, changes neither the set-point nor the
ambient temperature and sets `seconds` to 1; its outcome is the same for
every value of the ambient temperature. The next step (entered with
`seconds = 1`) sends exactly one report line. -/
theorem C4_first_heat_mode_step_skips (state : Int) (g : Globals) (h0 : g.seconds = 0) :
    setHeatMode state g = (state, { g with seconds := 1 })
    ∧ (setHeatMode state g).2.uart = g.uart
    ∧ (setHeatMode state g).2.led = g.led
    ∧ (setHeatMode state g).2.setPoint = g.setPoint
    ∧ (setHeatMode state g).2.ambientTemperature = g.ambientTemperature
    ∧ (∀ a : Int, setHeatMode state { g with ambientTemperature := a }
          = (state, { g with ambientTemperature := a, seconds := 1 }))
    ∧ (setHeatMode (setHeatMode state g).1 (setHeatMode state g).2).2.uart
        = g.uart ++ [DISPLAY (reportLine g.ambientTemperature g.setPoint
            (if g.ambientTemperature < g.setPoint then HEAT_ON else HEAT_OFF) 1)] := by
  have e : ∀ a : Int, setHeatMode state { g with ambientTemperature := a }
      = (state, { g with ambientTemperature := a, seconds := 1 }) := by
    intro a
    simp [setHeatMode, h0, toInt32]
  have e0 : setHeatMode state g = (state, { g with seconds := 1 }) := by
    simp [setHeatMode, h0, toInt32]
  refine ⟨e0, by rw [e0], by rw [e0], by rw [e0], by rw [e0], e, ?_⟩
  rw [e0]
  simp only [setHeatMode]
  split_ifs <;> simp_all

/-- C4 witness: the first Heat-Mode step of the system, from the startup
globals. -/
theorem C4_first_heat_mode_step_skips_witness :
    setHeatMode HEAT_INIT initialGlobals = (HEAT_INIT, { initialGlobals with seconds := 1 })
    ∧ (setHeatMode HEAT_INIT { initialGlobals with seconds := 1 }).2.uart
        = [{ data := "<00,20,1,0001>\n\r".toList, count := 16 }] :=
  ⟨(C4_first_heat_mode_step_skips HEAT_INIT initialGlobals rfl).1, by decide⟩

/-! ## Scheduler: which tasks run in which cycle -/

theorem tasksAfter_startup : TasksAfter 0 startup.tasks :=
  ⟨Button_INIT, Temperature_Sensor_INIT, HEAT_INIT, rfl⟩

theorem tasksAfter_mk (k : Nat) (s0 s1 s2 : Int) (e0 e1 e2 : Nat)
    (h0 : e0 = 100 * ((k + 1) % 2) + 100) (h1 : e1 = 100 * ((k + 4) % 5) + 100)
    (h2 : e2 = 100 * ((k + 9) % 10) + 100) :
    TasksAfter k
      [ { state := s0, period := 200, elapsedTime := e0,
          tickFunction := fun _ => adjustSetPointTemperature },
        { state := s1, period := 500, elapsedTime := e1,
          tickFunction := getAmbientTemperature },
        { state := s2, period := 1000, elapsedTime := e2,
          tickFunction := fun _ => setHeatMode } ] := by
  subst h0 h1 h2
  exact ⟨s0, s1, s2, rfl⟩

/-- One execution of the loop body, number `k`: the task list keeps its
shape, and exactly the tasks of `dueAt k` are invoked, in that order. -/
theorem loopBody_tasksAfter (io : I2CResult) (k : Nat) (s : System)
    (h : TasksAfter k s.tasks) :
    TasksAfter (k + 1) (loopBody io s).tasks
      ∧ (loopBody io s).calls = s.calls ++ dueAt k := by
  obtain ⟨s0, s1, s2, hts⟩ := h
  have c0 : (100 * ((k + 1) % 2) + 100 ≥ 200) ↔ k % 2 = 0 := by omega
  have c1 : (100 * ((k + 4) % 5) + 100 ≥ 500) ↔ k % 5 = 0 := by omega
  have c2 : (100 * ((k + 9) % 10) + 100 ≥ 1000) ↔ k % 10 = 0 := by omega
  simp only [loopBody, hts, forTasks, tickTask, timerPeriod, toULong, dueAt, c0, c1, c2,
    TasksAfter]
  by_cases h0 : k % 2 = 0 <;> by_cases h1 : k % 5 = 0 <;> by_cases h2 : k % 10 = 0 <;>
    simp only [h0, h1, h2, if_true, if_false]
  all_goals
    refine ⟨tasksAfter_mk _ _ _ _ _ _ _ ?_ ?_ ?_, ?_⟩
    · omega
    · first | omega | (rw [Nat.mod_eq_of_lt (by omega)]; omega)
    · first | omega | (rw [Nat.mod_eq_of_lt (by omega)]; omega)
    · simp

/-- The globals after execution number `k` of the loop body: the due task
functions applied in list order, each to the state its task stores. -/
theorem loopBody_g (io : I2CResult) (k : Nat) (s : System) (s0 s1 s2 : Int)
    (hts : s.tasks =
      [ { state := s0, period := 200, elapsedTime := 100 * ((k + 1) % 2) + 100,
          tickFunction := fun _ => adjustSetPointTemperature },
        { state := s1, period := 500, elapsedTime := 100 * ((k + 4) % 5) + 100,
          tickFunction := getAmbientTemperature },
        { state := s2, period := 1000, elapsedTime := 100 * ((k + 9) % 10) + 100,
          tickFunction := fun _ => setHeatMode } ]) :
    (loopBody io s).g =
      (if k % 10 = 0 then
        (setHeatMode s2
          (if k % 5 = 0 then
            (getAmbientTemperature io s1
              (if k % 2 = 0 then (adjustSetPointTemperature s0 s.g).2 else s.g)).2
          else (if k % 2 = 0 then (adjustSetPointTemperature s0 s.g).2 else s.g))).2
      else
        (if k % 5 = 0 then
          (getAmbientTemperature io s1
            (if k % 2 = 0 then (adjustSetPointTemperature s0 s.g).2 else s.g)).2
        else (if k % 2 = 0 then (adjustSetPointTemperature s0 s.g).2 else s.g))) := by
  have c0 : (100 * ((k + 1) % 2) + 100 ≥ 200) ↔ k % 2 = 0 := by omega
  have c1 : (100 * ((k + 4) % 5) + 100 ≥ 500) ↔ k % 5 = 0 := by omega
  have c2 : (100 * ((k + 9) % 10) + 100 ≥ 1000) ↔ k % 10 = 0 := by omega
  simp only [loopBody, hts, forTasks, tickTask, c0, c1, c2]
  by_cases h0 : k % 2 = 0 <;> by_cases h1 : k % 5 = 0 <;> by_cases h2 : k % 10 = 0 <;>
    simp only [h0, h1, h2, if_true, if_false]

/-- A property of the globals that the three task functions keep is kept by
the loop body. -/
theorem loopBody_preserves (P : Globals → Prop)
    (hadj : ∀ st g, P g → P (adjustSetPointTemperature st g).2)
    (hamb : ∀ io st g, P g → P (getAmbientTemperature io st g).2)
    (hheat : ∀ st g, P g → P (setHeatMode st g).2)
    (io : I2CResult) (k : Nat) (s : System) (h : TasksAfter k s.tasks) (hP : P s.g) :
    P (loopBody io s).g := by
  obtain ⟨s0, s1, s2, hts⟩ := h
  rw [loopBody_g io k s s0 s1 s2 hts]
  have h1 : P (if k % 2 = 0 then (adjustSetPointTemperature s0 s.g).2 else s.g) := by
    split_ifs
    · exact hadj _ _ hP
    · exact hP
  have h2 : P (if k % 5 = 0 then
      (getAmbientTemperature io s1
        (if k % 2 = 0 then (adjustSetPointTemperature s0 s.g).2 else s.g)).2
      else (if k % 2 = 0 then (adjustSetPointTemperature s0 s.g).2 else s.g)) := by
    by_cases c : k % 5 = 0
    · rw [if_pos c]; exact hamb _ _ _ h1
    · rw [if_neg c]; exact h1
  by_cases c : k % 10 = 0
  · rw [if_pos c]; exact hheat _ _ h2
  · rw [if_neg c]; exact h2

/-- The task list keeps its shape along any sequence of events; the number
of executions of the loop body advances by the ticks among them. -/
theorem run_tasksAfter (evs : List Event) (k : Nat) (s : System)
    (h : TasksAfter k s.tasks) : TasksAfter (k + ticks evs) (run s evs).tasks := by
  induction evs generalizing k s with
  | nil => simpa [run, ticks] using h
  | cons e es ih =>
    cases e with
    | increaseButton =>
      simpa [run, ticks, step, Event.isTick] using
        ih k { s with g := gpioIncreaseTemperatureCallback s.g } h
    | decreaseButton =>
      simpa [run, ticks, step, Event.isTick] using
        ih k { s with g := gpioDecreaseTemperatureCallback s.g } h
    | tick io =>
      have h1 := (loopBody_tasksAfter io k s h).1
      have h2 := ih (k + 1) (loopBody io s) h1
      have e : k + ticks (Event.tick io :: es) = k + 1 + ticks es := by
        simp [ticks, Event.isTick]; omega
      rw [e]
      simpa [run, step] using h2

/-- A property of the globals that the callbacks and the task functions keep
holds after any sequence of events, once it holds before. -/
theorem run_preserves (P : Globals → Prop)
    (hinc : ∀ g, P g → P (gpioIncreaseTemperatureCallback g))
    (hdec : ∀ g, P g → P (gpioDecreaseTemperatureCallback g))
    (hadj : ∀ st g, P g → P (adjustSetPointTemperature st g).2)
    (hamb : ∀ io st g, P g → P (getAmbientTemperature io st g).2)
    (hheat : ∀ st g, P g → P (setHeatMode st g).2)
    (evs : List Event) (k : Nat) (s : System) (h : TasksAfter k s.tasks) (hP : P s.g) :
    P (run s evs).g := by
  induction evs generalizing k s with
  | nil => simpa [run] using hP
  | cons e es ih =>
    cases e with
    | increaseButton =>
      exact ih k { s with g := gpioIncreaseTemperatureCallback s.g } h (hinc _ hP)
    | decreaseButton =>
      exact ih k { s with g := gpioDecreaseTemperatureCallback s.g } h (hdec _ hP)
    | tick io =>
      exact ih (k + 1) (loopBody io s) (loopBody_tasksAfter io k s h).1
        (loopBody_preserves P hadj hamb hheat io k s h hP)

theorem count_dueAt (k : Nat) :
    (dueAt k).count 0 = (if k % 2 = 0 then 1 else 0)
    ∧ (dueAt k).count 1 = (if k % 5 = 0 then 1 else 0)
    ∧ (dueAt k).count 2 = (if k % 10 = 0 then 1 else 0) := by
  unfold dueAt
  by_cases h0 : k % 2 = 0 <;> by_cases h1 : k % 5 = 0 <;> by_cases h2 : k % 10 = 0 <;>
    simp [h0, h1, h2]

/-- Invocation counts along any sequence of events. -/
theorem run_counts (evs : List Event) (k : Nat) (s : System)
    (h : TasksAfter k s.tasks)
    (hc : s.calls.count 0 = (k + 1) / 2 ∧ s.calls.count 1 = (k + 4) / 5
      ∧ s.calls.count 2 = (k + 9) / 10) :
    (run s evs).calls.count 0 = (k + ticks evs + 1) / 2
    ∧ (run s evs).calls.count 1 = (k + ticks evs + 4) / 5
    ∧ (run s evs).calls.count 2 = (k + ticks evs + 9) / 10 := by
  induction evs generalizing k s with
  | nil => simpa [run, ticks] using hc
  | cons e es ih =>
    cases e with
    | increaseButton =>
      simpa [run, ticks, step, Event.isTick] using
        ih k { s with g := gpioIncreaseTemperatureCallback s.g } h hc
    | decreaseButton =>
      simpa [run, ticks, step, Event.isTick] using
        ih k { s with g := gpioDecreaseTemperatureCallback s.g } h hc
    | tick io =>
      obtain ⟨h1, h2⟩ := loopBody_tasksAfter io k s h
      obtain ⟨d0, d1, d2⟩ := count_dueAt k
      have hc1 : (loopBody io s).calls.count 0 = (k + 1 + 1) / 2
          ∧ (loopBody io s).calls.count 1 = (k + 1 + 4) / 5
          ∧ (loopBody io s).calls.count 2 = (k + 1 + 9) / 10 := by
        rw [h2]
        simp only [List.count_append, d0, d1, d2, hc.1, hc.2.1, hc.2.2]
        refine ⟨?_, ?_, ?_⟩ <;> split_ifs <;> omega
      have e : k + ticks (Event.tick io :: es) = k + 1 + ticks es := by
        simp [ticks, Event.isTick]; omega
      rw [e]
      simpa [run, step] using ih (k + 1) (loopBody io s) h1 hc1

theorem readTemp_setPoint (io : I2CResult) (g : Globals) :
    (readTemp io g).2.setPoint = g.setPoint := by
  cases io with
  | ok b0 b1 => simp only [readTemp]; split_ifs <;> rfl
  | fail status => rfl

theorem getAmbientTemperature_setPoint (io : I2CResult) (state : Int) (g : Globals) :
    (getAmbientTemperature io state g).2.setPoint = g.setPoint := by
  simp only [getAmbientTemperature]
  split_ifs
  · rfl
  · exact readTemp_setPoint io g
  · rfl

theorem setHeatMode_setPoint (state : Int) (g : Globals) :
    (setHeatMode state g).2.setPoint = g.setPoint := by
  simp only [setHeatMode]
  split_ifs <;> rfl

/-- C5 (as stated, refuted): after the first execution of the loop body
(N = 1) the Set-Point task, of period 200, has been invoked once, while
`floor (1 * 100 / 200)` is 0. -/
theorem C5_first_cycle_already_invokes :
    ticks [Event.tick (.fail 0)] = 1
    ∧ (run startup [Event.tick (.fail 0)]).calls.count 0 = 1
    ∧ (run startup [Event.tick (.fail 0)]).calls.count 0 ≠ 1 * timerPeriod / checkButtonPeriod := by
  decide

/-- C5 (amended): from the task list built at startup, after any sequence
of events containing N executions of the loop body (whatever the buttons and
the sensor do), the function of the task of period P has been invoked exactly
`ceil (N * 100 / P)` times, for each of the three tasks (P = 200, 500, 1000):
every task runs in the very first execution and then once per period. -/
theorem C5_invocation_counts (evs : List Event) :
    (run startup evs).calls.count 0
        = (ticks evs * timerPeriod + (checkButtonPeriod - 1)) / checkButtonPeriod
    ∧ (run startup evs).calls.count 1
        = (ticks evs * timerPeriod + (checkTemperaturePeriod - 1)) / checkTemperaturePeriod
    ∧ (run startup evs).calls.count 2
        = (ticks evs * timerPeriod + (HeatAndServerPeriod - 1)) / HeatAndServerPeriod := by
  obtain ⟨h0, h1, h2⟩ := run_counts evs 0 startup tasksAfter_startup
    ⟨by decide, by decide, by decide⟩
  simp only [timerPeriod, checkButtonPeriod, checkTemperaturePeriod, HeatAndServerPeriod]
  rw [h0, h1, h2]
  refine ⟨?_, ?_, ?_⟩ <;> omega

/-- C7: `0 ≤ setPoint ≤ 99` holds for the startup globals, is kept by both
button callbacks, by the Set-Point step for every incoming state and pending
intent, and by the Temperature and Heat-Mode steps; hence it holds after
every sequence of button interrupts and executions of the loop body. -/
theorem C7_set_point_in_range :
    (0 ≤ initialGlobals.setPoint ∧ initialGlobals.setPoint ≤ 99)
    ∧ (∀ g : Globals, 0 ≤ g.setPoint ∧ g.setPoint ≤ 99 →
        0 ≤ (gpioIncreaseTemperatureCallback g).setPoint
          ∧ (gpioIncreaseTemperatureCallback g).setPoint ≤ 99)
    ∧ (∀ g : Globals, 0 ≤ g.setPoint ∧ g.setPoint ≤ 99 →
        0 ≤ (gpioDecreaseTemperatureCallback g).setPoint
          ∧ (gpioDecreaseTemperatureCallback g).setPoint ≤ 99)
    ∧ (∀ (state : Int) (g : Globals), 0 ≤ g.setPoint ∧ g.setPoint ≤ 99 →
        0 ≤ (adjustSetPointTemperature state g).2.setPoint
          ∧ (adjustSetPointTemperature state g).2.setPoint ≤ 99)
    ∧ (∀ (io : I2CResult) (state : Int) (g : Globals), 0 ≤ g.setPoint ∧ g.setPoint ≤ 99 →
        0 ≤ (getAmbientTemperature io state g).2.setPoint
          ∧ (getAmbientTemperature io state g).2.setPoint ≤ 99)
    ∧ (∀ (state : Int) (g : Globals), 0 ≤ g.setPoint ∧ g.setPoint ≤ 99 →
        0 ≤ (setHeatMode state g).2.setPoint ∧ (setHeatMode state g).2.setPoint ≤ 99)
    ∧ (∀ evs : List Event,
        0 ≤ (run startup evs).g.setPoint ∧ (run startup evs).g.setPoint ≤ 99) := by
  have hinit : 0 ≤ initialGlobals.setPoint ∧ initialGlobals.setPoint ≤ 99 := by decide
  have hinc : ∀ g : Globals, 0 ≤ g.setPoint ∧ g.setPoint ≤ 99 →
      0 ≤ (gpioIncreaseTemperatureCallback g).setPoint
        ∧ (gpioIncreaseTemperatureCallback g).setPoint ≤ 99 := fun _ h => h
  have hdec : ∀ g : Globals, 0 ≤ g.setPoint ∧ g.setPoint ≤ 99 →
      0 ≤ (gpioDecreaseTemperatureCallback g).setPoint
        ∧ (gpioDecreaseTemperatureCallback g).setPoint ≤ 99 := fun _ h => h
  have hadj : ∀ (state : Int) (g : Globals), 0 ≤ g.setPoint ∧ g.setPoint ≤ 99 →
      0 ≤ (adjustSetPointTemperature state g).2.setPoint
        ∧ (adjustSetPointTemperature state g).2.setPoint ≤ 99 := adjust_setPoint_range
  have hamb : ∀ (io : I2CResult) (state : Int) (g : Globals),
      0 ≤ g.setPoint ∧ g.setPoint ≤ 99 →
      0 ≤ (getAmbientTemperature io state g).2.setPoint
        ∧ (getAmbientTemperature io state g).2.setPoint ≤ 99 := by
    intro io state g h
    rw [getAmbientTemperature_setPoint]; exact h
  have hheat : ∀ (state : Int) (g : Globals), 0 ≤ g.setPoint ∧ g.setPoint ≤ 99 →
      0 ≤ (setHeatMode state g).2.setPoint ∧ (setHeatMode state g).2.setPoint ≤ 99 := by
    intro state g h
    rw [setHeatMode_setPoint]; exact h
  exact ⟨hinit, hinc, hdec, hadj, hamb, hheat, fun evs =>
    run_preserves (fun g => 0 ≤ g.setPoint ∧ g.setPoint ≤ 99) hinc hdec hadj hamb hheat
      evs 0 startup tasksAfter_startup hinit⟩

/-- C7 witness: after an Increase press and twenty executions of the loop
body the set-point is 21, within [0, 99]. -/
theorem C7_set_point_in_range_witness :
    (run startup (Event.increaseButton :: List.replicate 20 (Event.tick (.ok 5 0)))).g.setPoint
        = 21
    ∧ 0 ≤ (run startup
        (Event.increaseButton :: List.replicate 20 (Event.tick (.ok 5 0)))).g.setPoint
    ∧ (run startup
        (Event.increaseButton :: List.replicate 20 (Event.tick (.ok 5 0)))).g.setPoint ≤ 99 :=
  ⟨by decide,
   C7_set_point_in_range.2.2.2.2.2.2
     (Event.increaseButton :: List.replicate 20 (Event.tick (.ok 5 0)))⟩

/-! ## Sensor decoding -/

set_option maxRecDepth 100000 in
/-- The OR with `0xF000` on a scaled negative reading: it changes nothing
but a zero. -/
theorem orInt_F000_small : ∀ n : Fin 257,
    toInt16 (orInt (-(n.val : Int)) 0xF000)
      = if n.val = 0 then -4096 else -(n.val : Int) := by
  decide

set_option maxRecDepth 100000 in
theorem or16_F000_small : ∀ n : Fin 257,
    Int.ofNat (((-(n.val : Int)) % 65536).toNat ||| 0xF000) - 65536
      = if n.val = 0 then -4096 else -(n.val : Int) := by
  decide

set_option maxRecDepth 100000 in
theorem and_0x80_low : ∀ b : Fin 128, b.val &&& 0x80 = 0 := by decide

set_option maxRecDepth 100000 in
theorem and_0x80_high : ∀ b : Fin 128, (b.val + 128) &&& 0x80 ≠ 0 := by decide

/-- The two received bytes combined as `(rxBuffer[0] << 8) | rxBuffer[1]`. -/
theorem raw_register (hi lo : Nat) (hhi : hi < 256) (hlo : lo < 256) :
    ((hi % 256) <<< 8) ||| (lo % 256) = 256 * hi + lo := by
  rw [Nat.mod_eq_of_lt hhi, Nat.mod_eq_of_lt hlo, Nat.shiftLeft_eq, Nat.mul_comm]
  exact (Nat.mul_add_lt_is_or (by simpa using hlo) hi).symm

/-- The value `readTemp` returns for a reading whose top bit is set. -/
theorem readTemp_negative (hi lo : Nat) (g : Globals) (h1 : 128 ≤ hi) (h2 : hi < 256)
    (hlo : lo < 256) :
    readTemp (.ok hi lo) g =
      (if (65536 - (256 * hi + lo)) / 128 = 0 then -4096
        else -(((65536 - (256 * hi + lo)) / 128 : Nat) : Int), g) := by
  have hb : (hi % 256) &&& 0x80 ≠ 0 := by
    rw [Nat.mod_eq_of_lt h2]
    have := and_0x80_high ⟨hi - 128, by omega⟩
    simpa [Nat.sub_add_cancel h1] using this
  have hs : scaleLsb (toInt16 (Int.ofNat (256 * hi + lo)))
      = -(((65536 - (256 * hi + lo)) / 128 : Nat) : Int) := by
    simp only [scaleLsb, toInt16, Int.ofNat_eq_coe]
    split_ifs <;> omega
  have hn : (65536 - (256 * hi + lo)) / 128 < 257 := by omega
  have hor := orInt_F000_small ⟨(65536 - (256 * hi + lo)) / 128, hn⟩
  simp only [readTemp, raw_register hi lo h2 hlo, hs]
  rw [if_pos hb]
  simpa using hor

/-- C8: for raw sensor bytes `hi`, `lo` with the top bit of `hi` clear, a
successful read returns `floor ((256 * hi + lo) / 128)`, a value in [0, 255],
with no sign extension, and leaves the globals alone. -/
theorem C8_positive_reading (hi lo : Nat) (g : Globals) (hhi : hi < 0x80) (hlo : lo < 256) :
    readTemp (.ok hi lo) g = ((((256 * hi + lo) / 128 : Nat) : Int), g)
    ∧ 0 ≤ (readTemp (.ok hi lo) g).1
    ∧ (readTemp (.ok hi lo) g).1 ≤ 255 := by
  have hb : (hi % 256) &&& 0x80 = 0 := by
    rw [Nat.mod_eq_of_lt (by omega)]
    exact and_0x80_low ⟨hi, hhi⟩
  have hs : scaleLsb (toInt16 (Int.ofNat (256 * hi + lo)))
      = (((256 * hi + lo) / 128 : Nat) : Int) := by
    simp only [scaleLsb, toInt16, Int.ofNat_eq_coe]
    split_ifs <;> omega
  have e : readTemp (.ok hi lo) g = ((((256 * hi + lo) / 128 : Nat) : Int), g) := by
    simp only [readTemp, raw_register hi lo (by omega) hlo, hs]
    simp [hb]
  rw [e]
  refine ⟨rfl, ?_, ?_⟩
  · show (0 : Int) ≤ ((256 * hi + lo) / 128 : Nat)
    omega
  · show (((256 * hi + lo) / 128 : Nat) : Int) ≤ 255
    omega

/-- C8 witness: the bytes `{0x05, 0x00}` decode to 10. -/
theorem C8_positive_reading_witness :
    readTemp (.ok 0x05 0x00) initialGlobals = (10, initialGlobals) :=
  (C8_positive_reading 0x05 0x00 initialGlobals (by decide) (by decide)).1

/-- C9 (as stated, refuted): for the bytes `{0xC9, 0x00}` a successful read
returns -110, while OR-ing the raw register value `0xC900` with `0xF000`
first, reading it as a signed 16-bit integer and then scaling gives -14. -/
theorem C9_or_before_scaling_differs :
    (readTemp (.ok 0xC9 0x00) initialGlobals).1 = -110
    ∧ decodeOrThenScale 0xC9 0x00 = -14
    ∧ (readTemp (.ok 0xC9 0x00) initialGlobals).1 ≠ decodeOrThenScale 0xC9 0x00 := by
  decide

/-- C9 (amended): for raw sensor bytes `hi`, `lo` with the top bit of `hi`
set, a successful read returns a negative value, equal to the result of
first reading the raw 16-bit register value as a signed 16-bit integer and
scaling it by 1/128 (fraction dropped), and then OR-ing the scaled value with
`0xF000`. -/
theorem C9_negative_reading (hi lo : Nat) (g : Globals) (h1 : 0x80 ≤ hi) (h2 : hi < 256)
    (hlo : lo < 256) :
    (readTemp (.ok hi lo) g).1 < 0
    ∧ (readTemp (.ok hi lo) g).1 = decodeScaleThenOr hi lo
    ∧ (readTemp (.ok hi lo) g).2 = g := by
  have hn : (65536 - (256 * hi + lo)) / 128 < 257 := by omega
  have hq : Int.tdiv (((256 * hi + lo : Nat) : Int) - 65536) 128
      = -(((65536 - (256 * hi + lo)) / 128 : Nat) : Int) := by
    have e : (((256 * hi + lo : Nat) : Int) - 65536)
        = -((65536 - (256 * hi + lo) : Nat) : Int) := by omega
    rw [e, Int.neg_tdiv, Int.tdiv_eq_ediv (by omega) (by omega)]
    norm_cast
  have hor := or16_F000_small ⟨(65536 - (256 * hi + lo)) / 128, hn⟩
  rw [readTemp_negative hi lo g h1 h2 hlo]
  refine ⟨?_, ?_, rfl⟩
  · show (if (65536 - (256 * hi + lo)) / 128 = 0 then (-4096 : Int)
        else -(((65536 - (256 * hi + lo)) / 128 : Nat) : Int)) < 0
    split_ifs <;> omega
  · show _ = decodeScaleThenOr hi lo
    simp only [decodeScaleThenOr, hq]
    exact hor.symm

/-- C9 witness: the bytes `{0xC9, 0x00}` decode to -110. -/
theorem C9_negative_reading_witness :
    (readTemp (.ok 0xC9 0x00) initialGlobals).1 < 0
    ∧ (readTemp (.ok 0xC9 0x00) initialGlobals).1 = decodeScaleThenOr 0xC9 0x00
    ∧ decodeScaleThenOr 0xC9 0x00 = -110 :=
  ⟨(C9_negative_reading 0xC9 0x00 initialGlobals (by decide) (by decide) (by decide)).1,
   (C9_negative_reading 0xC9 0x00 initialGlobals (by decide) (by decide) (by decide)).2.1,
   by decide⟩

/-! ## Report format -/

theorem toDigitsCore_succ (fuel n : Nat) (ds : List Char) :
    Nat.toDigitsCore 10 (fuel + 1) n ds =
      if n / 10 = 0 then Nat.digitChar (n % 10) :: ds
      else Nat.toDigitsCore 10 fuel (n / 10) (Nat.digitChar (n % 10) :: ds) := by
  simp [Nat.toDigitsCore]

theorem toDigits_one (n : Nat) (h : n < 10) : Nat.toDigits 10 n = [Nat.digitChar n] := by
  have h0 : n / 10 = 0 := by omega
  have h1 : n % 10 = n := by omega
  rw [Nat.toDigits, toDigitsCore_succ, if_pos h0, h1]

theorem toDigits_two (n : Nat) (h1 : 10 ≤ n) (h2 : n < 100) :
    Nat.toDigits 10 n = [Nat.digitChar (n / 10), Nat.digitChar (n % 10)] := by
  obtain ⟨f, hf⟩ : ∃ f, n + 1 = f + 1 + 1 := ⟨n - 1, by omega⟩
  have a0 : ¬ n / 10 = 0 := by omega
  have a1 : n / 10 / 10 = 0 := by omega
  have a2 : n / 10 % 10 = n / 10 := by omega
  rw [Nat.toDigits, hf, toDigitsCore_succ, if_neg a0, toDigitsCore_succ, if_pos a1, a2]

theorem toDigits_three (n : Nat) (h1 : 100 ≤ n) (h2 : n < 1000) :
    Nat.toDigits 10 n
      = [Nat.digitChar (n / 100), Nat.digitChar (n / 10 % 10), Nat.digitChar (n % 10)] := by
  obtain ⟨f, hf⟩ : ∃ f, n + 1 = f + 1 + 1 + 1 := ⟨n - 2, by omega⟩
  have a0 : ¬ n / 10 = 0 := by omega
  have a1 : ¬ n / 10 / 10 = 0 := by omega
  have a2 : n / 10 / 10 / 10 = 0 := by omega
  have a3 : n / 10 / 10 % 10 = n / 100 := by omega
  rw [Nat.toDigits, hf, toDigitsCore_succ, if_neg a0, toDigitsCore_succ, if_neg a1,
    toDigitsCore_succ, if_pos a2, a3]

theorem toDigits_four (n : Nat) (h1 : 1000 ≤ n) (h2 : n < 10000) :
    Nat.toDigits 10 n
      = [Nat.digitChar (n / 1000), Nat.digitChar (n / 100 % 10),
         Nat.digitChar (n / 10 % 10), Nat.digitChar (n % 10)] := by
  obtain ⟨f, hf⟩ : ∃ f, n + 1 = f + 1 + 1 + 1 + 1 := ⟨n - 3, by omega⟩
  have a0 : ¬ n / 10 = 0 := by omega
  have a1 : ¬ n / 10 / 10 = 0 := by omega
  have a2 : ¬ n / 10 / 10 / 10 = 0 := by omega
  have a3 : n / 10 / 10 / 10 / 10 = 0 := by omega
  have a4 : n / 10 / 10 / 10 % 10 = n / 1000 := by omega
  have a5 : n / 10 / 10 % 10 = n / 100 % 10 := by omega
  rw [Nat.toDigits, hf, toDigitsCore_succ, if_neg a0, toDigitsCore_succ, if_neg a1,
    toDigitsCore_succ, if_neg a2, toDigitsCore_succ, if_pos a3, a4, a5]

/-- `%02d` of a value in [0, 99] is its two decimal digits. -/
theorem fmtD_two (n : Nat) (h : n < 100) :
    fmtD 2 (n : Int) = [Nat.digitChar (n / 10), Nat.digitChar (n % 10)] := by
  have hneg : ¬ ((n : Int) < 0) := by omega
  simp only [fmtD, hneg, if_false, Int.natAbs_ofNat]
  by_cases c : n < 10
  · have e0 : n / 10 = 0 := by omega
    have e1 : n % 10 = n := by omega
    rw [toDigits_one n c, e0, e1]; rfl
  · rw [toDigits_two n (by omega) h]; rfl

/-- `%04d` of a value in [0, 9999] is its four decimal digits. -/
theorem fmtD_four (n : Nat) (h : n < 10000) :
    fmtD 4 (n : Int)
      = [Nat.digitChar (n / 1000), Nat.digitChar (n / 100 % 10),
         Nat.digitChar (n / 10 % 10), Nat.digitChar (n % 10)] := by
  have hneg : ¬ ((n : Int) < 0) := by omega
  simp only [fmtD, hneg, if_false, Int.natAbs_ofNat]
  by_cases c1 : n < 10
  · have e0 : n / 1000 = 0 := by omega
    have e1 : n / 100 % 10 = 0 := by omega
    have e2 : n / 10 % 10 = 0 := by omega
    have e3 : n % 10 = n := by omega
    rw [toDigits_one n c1, e0, e1, e2, e3]; rfl
  · by_cases c2 : n < 100
    · have e0 : n / 1000 = 0 := by omega
      have e1 : n / 100 % 10 = 0 := by omega
      have e2 : n / 10 % 10 = n / 10 := by omega
      rw [toDigits_two n (by omega) c2, e0, e1, e2]; rfl
    · by_cases c3 : n < 1000
      · have e0 : n / 1000 = 0 := by omega
        have e1 : n / 100 % 10 = n / 100 := by omega
        rw [toDigits_three n (by omega) c3, e0, e1]; rfl
      · rw [toDigits_four n (by omega) h]; rfl

/-- The report text on fields that fit their widths is the fixed record. -/
theorem reportText_fixed (a s h e : Nat) (ha : a < 100) (hs : s < 100) (hh : h < 10)
    (he : e < 10000) :
    reportText (a : Int) (s : Int) (h : Int) (e : Int) = fixedRecord a s h e := by
  have hd : fmtD 0 (h : Int) = [Nat.digitChar h] := by
    have hneg : ¬ ((h : Int) < 0) := by omega
    simp only [fmtD, hneg, if_false, Int.natAbs_ofNat]
    rw [toDigits_one h hh]; rfl
  simp only [reportText, fmtD_two a ha, fmtD_two s hs, hd, fmtD_four e he, fixedRecord]
  rfl

/-- C10 (as stated, refuted): starting the system and letting the sensor
deliver the bytes `{0xC9, 0x00}` at every read, the first report (in the
eleventh execution of the loop body, with set-point 20 and `seconds = 1`) is
`<-110,20,1,0001>`: 16 characters before the line end, not 14, with a
four-character ambient field. -/
theorem C10_negative_ambient_widens_report :
    (run startup (List.replicate 11 (Event.tick (.ok 0xC9 0x00)))).g.uart
        = [{ data := "<-110,20,1,0001>\n\r".toList, count := 18 }]
    ∧ "<-110,20,1,0001>".toList.length = 16
    ∧ "<-110,20,1,0001>".toList.length ≠ 14 := by
  decide

/-- C10 (amended): in every state with the set-point in [0, 99], the ambient
temperature in [0, 99] and `seconds` in [1, 9999], the report sent by the
Heat-Mode step is, before its line end `"\n\r"`, exactly the 14 characters
`<AA,SS,H,EEEE>`: two decimal digits of the ambient temperature, two of the
set-point, the digit 0 or 1 of the new heat state and four digits of
`seconds`, separated by commas between angle brackets; all 16 characters are
handed to the UART. -/
theorem C10_report_fixed_width (state : Int) (g : Globals)
    (ha0 : 0 ≤ g.ambientTemperature) (ha1 : g.ambientTemperature ≤ 99)
    (hs0 : 0 ≤ g.setPoint) (hs1 : g.setPoint ≤ 99)
    (he0 : 0 < g.seconds) (he1 : g.seconds ≤ 9999) :
    (setHeatMode state g).2.uart = g.uart ++
      [{ data := fixedRecord g.ambientTemperature.toNat g.setPoint.toNat
            (if g.ambientTemperature < g.setPoint then 1 else 0) g.seconds.toNat
            ++ ['\n', '\r'],
         count := 16 }]
    ∧ (fixedRecord g.ambientTemperature.toNat g.setPoint.toNat
        (if g.ambientTemperature < g.setPoint then 1 else 0) g.seconds.toNat).length = 14 := by
  refine ⟨?_, rfl⟩
  have hne : g.seconds ≠ 0 := by omega
  have ea : g.ambientTemperature = (g.ambientTemperature.toNat : Int) := by omega
  have es : g.setPoint = (g.setPoint.toNat : Int) := by omega
  have ee : g.seconds = (g.seconds.toNat : Int) := by omega
  have hfix : ∀ h : Nat, h < 10 →
      DISPLAY (reportLine g.ambientTemperature g.setPoint (h : Int) g.seconds)
        = { data := fixedRecord g.ambientTemperature.toNat g.setPoint.toNat h
              g.seconds.toNat ++ ['\n', '\r'],
            count := 16 } := by
    intro h hh
    have := reportText_fixed g.ambientTemperature.toNat g.setPoint.toNat h g.seconds.toNat
      (by omega) (by omega) hh (by omega)
    rw [← ea, ← es, ← ee] at this
    rw [reportLine, this]
    rfl
  simp only [setHeatMode, if_pos hne]
  by_cases c : g.ambientTemperature < g.setPoint
  · simp only [if_pos c]
    have := hfix 1 (by decide)
    simp only [HEAT_ON]
    exact congrArg (fun w => g.uart ++ [w]) this
  · simp only [if_neg c]
    have := hfix 0 (by decide)
    simp only [HEAT_OFF]
    exact congrArg (fun w => g.uart ++ [w]) this

/-- C10 witness: set-point 20, ambient 18 and `seconds = 3` give the report
`<18,20,1,0003>`. -/
theorem C10_report_fixed_width_witness :
    (setHeatMode HEAT_INIT
        { initialGlobals with ambientTemperature := 18, seconds := 3 }).2.uart
      = [{ data := "<18,20,1,0003>\n\r".toList, count := 16 }] :=
  (C10_report_fixed_width HEAT_INIT
    { initialGlobals with ambientTemperature := 18, seconds := 3 }
    (by decide) (by decide) (by decide) (by decide) (by decide) (by decide)).1.trans
    (by decide)

/-! ## Set-point task: latching and clearing of the intent -/

/-- The Set-Point step with nothing pending and an idle state changes nothing. -/
theorem adjust_idle (g : Globals) (h : g.Button_State = Button_INIT) :
    adjustSetPointTemperature Button_INIT g = (Button_INIT, g) := by
  simp only [adjustSetPointTemperature, Increase_Temperature, Decrease_Temperature,
    Button_INIT] at h ⊢
  simp [h]

/-- C11 (as stated, refuted): with incoming state `Button_INIT` and a
pending Increase, one invocation of the Set-Point step leaves `Button_State`
at `Increase_Temperature` and returns `Increase_Temperature`, neither of
which is `Button_INIT`. -/
theorem C11_idle_state_keeps_pending_intent :
    (adjustSetPointTemperature Button_INIT
        { initialGlobals with Button_State := Increase_Temperature }).2.Button_State
      = Increase_Temperature
    ∧ (adjustSetPointTemperature Button_INIT
        { initialGlobals with Button_State := Increase_Temperature }).1
      = Increase_Temperature
    ∧ Increase_Temperature ≠ Button_INIT := by
  decide

/-- C11 (amended): for every incoming task state and every value of
`Button_State`, after one invocation of the Set-Point step: if the incoming
state is `Increase_Temperature` or `Decrease_Temperature`, `Button_State` is
`Button_INIT` and the returned state is `Button_INIT`; for every other
incoming state `Button_State` is unchanged and the returned state is that
pending value (so it is `Button_INIT` exactly when nothing is pending). -/
theorem C11_intent_cleared_only_when_applied (state : Int) (g : Globals) :
    ((state = Increase_Temperature ∨ state = Decrease_Temperature) →
        (adjustSetPointTemperature state g).2.Button_State = Button_INIT
        ∧ (adjustSetPointTemperature state g).1 = Button_INIT)
    ∧ (¬ (state = Increase_Temperature ∨ state = Decrease_Temperature) →
        (adjustSetPointTemperature state g).2 = g
        ∧ (adjustSetPointTemperature state g).1 = g.Button_State
        ∧ ((adjustSetPointTemperature state g).1 = Button_INIT
            ↔ g.Button_State = Button_INIT)) := by
  simp only [Increase_Temperature, Decrease_Temperature]
  constructor
  · intro h
    rw [adjust_fst, adjust_Button_State, if_pos h]
    exact ⟨rfl, rfl⟩
  · intro h
    have e : adjustSetPointTemperature state g = (g.Button_State, g) := by
      simp only [adjustSetPointTemperature, Increase_Temperature, Decrease_Temperature]
      rw [if_neg (fun c => h (Or.inl c)), if_neg (fun c => h (Or.inr c))]
    rw [e]
    exact ⟨rfl, rfl, Iff.rfl⟩

/-- C11 witness: with an Increase being applied the intent is cleared and
the step returns `Button_INIT`. -/
theorem C11_intent_cleared_only_when_applied_witness :
    (adjustSetPointTemperature Increase_Temperature
        { initialGlobals with Button_State := Decrease_Temperature }).2.Button_State
      = Button_INIT
    ∧ (adjustSetPointTemperature Increase_Temperature
        { initialGlobals with Button_State := Decrease_Temperature }).1 = Button_INIT :=
  (C11_intent_cleared_only_when_applied Increase_Temperature
    { initialGlobals with Button_State := Decrease_Temperature }).1 (Or.inl rfl)

/-- C12 (as stated, refuted): from set-point 20 and task state `Button_INIT`,
the events Increase interrupt, invoke, Decrease interrupt, invoke, invoke,
invoke end with set-point 21, not 20: the Decrease is never applied. -/
theorem C12_later_intent_is_lost :
    (setPointRun (Button_INIT, initialGlobals)
        [.increaseIrq, .invoke, .decreaseIrq, .invoke, .invoke, .invoke]).2.setPoint = 21
    ∧ (setPointRun (Button_INIT, initialGlobals)
        [.increaseIrq, .invoke, .decreaseIrq, .invoke, .invoke, .invoke]).2.setPoint
      ≠ initialGlobals.setPoint := by
  decide

/-- C12 (amended): an intent written after an invocation has latched the
pending intent and before the next invocation is lost: that next invocation
applies the latched intent only, whatever `Button_State` holds, and clears
`Button_State`. From set-point `s` with `0 < s < 99` and task state
`Button_INIT`, the events Increase interrupt, invoke, Decrease interrupt,
invoke, invoke, invoke end with set-point `s + 1`, nothing pending and task
state `Button_INIT`. -/
theorem C12_latched_intent_wins (g : Globals) (hlo : 0 < g.setPoint)
    (hhi : g.setPoint < 99) :
    (∀ (latched b : Int), latched = Increase_Temperature ∨ latched = Decrease_Temperature →
        (adjustSetPointTemperature latched { g with Button_State := b }).2
          = (adjustSetPointTemperature latched g).2
        ∧ (adjustSetPointTemperature latched { g with Button_State := b }).1 = Button_INIT)
    ∧ setPointRun (Button_INIT, g)
        [.increaseIrq, .invoke, .decreaseIrq, .invoke, .invoke, .invoke]
      = (Button_INIT, { g with setPoint := g.setPoint + 1, Button_State := Button_INIT }) := by
  constructor
  · intro latched b h
    rcases h with h | h <;> subst h <;>
      simp only [adjustSetPointTemperature, Increase_Temperature, Decrease_Temperature] <;>
      split_ifs <;> simp_all
  · have e : toInt16 (g.setPoint + 1) = g.setPoint + 1 :=
      toInt16_of_range _ (by omega) (by omega)
    simp [setPointRun, setPointStep, adjustSetPointTemperature,
      gpioIncreaseTemperatureCallback, gpioDecreaseTemperatureCallback,
      Increase_Temperature, Decrease_Temperature, Button_INIT, hhi, e]

/-- C12 witness: from set-point 20 the six events end with set-point 21. -/
theorem C12_latched_intent_wins_witness :
    setPointRun (Button_INIT, initialGlobals)
        [.increaseIrq, .invoke, .decreaseIrq, .invoke, .invoke, .invoke]
      = (Button_INIT, { initialGlobals with setPoint := 21 }) :=
  (C12_latched_intent_wins initialGlobals (by decide) (by decide)).2

/-- Invocations of the Set-Point step with an idle state and nothing pending
change nothing, however many there are. -/
theorem setPointRun_idle (g : Globals) (h : g.Button_State = Button_INIT) (n : Nat) :
    setPointRun (Button_INIT, g) (List.replicate n .invoke) = (Button_INIT, g) := by
  induction n with
  | zero => rfl
  | succ n ih =>
    rw [List.replicate_succ, setPointRun, List.foldl_cons]
    show setPointRun (adjustSetPointTemperature Button_INIT g) _ = _
    rw [adjust_idle g h]
    exact ih

/-- C19: from task state `Button_INIT` with a pending intent `X` (Increase
or Decrease), a set-point in [0, 99] and no further interrupt, the first
invocation of the Set-Point step changes nothing and returns `X`; the second
changes the set-point by +1 (Increase, below 99) or -1 (Decrease, above 0),
clears `Button_State` and returns `Button_INIT`; every later invocation
changes nothing. The press takes two invocations and is applied once. -/
theorem C19_press_applied_once_by_second_invocation (g : Globals) (X : Int)
    (hX : X = Increase_Temperature ∨ X = Decrease_Temperature)
    (hp : g.Button_State = X) (hlo : 0 ≤ g.setPoint) (hhi : g.setPoint ≤ 99) :
    adjustSetPointTemperature Button_INIT g = (X, g)
    ∧ adjustSetPointTemperature X g
        = (Button_INIT,
            { g with
              setPoint :=
                if X = Increase_Temperature then
                  (if g.setPoint < 99 then g.setPoint + 1 else g.setPoint)
                else (if g.setPoint > 0 then g.setPoint - 1 else g.setPoint),
              Button_State := Button_INIT })
    ∧ ∀ n : Nat,
        setPointRun (adjustSetPointTemperature X g) (List.replicate n .invoke)
          = adjustSetPointTemperature X g := by
  have e1 : adjustSetPointTemperature Button_INIT g = (X, g) := by
    simp [adjustSetPointTemperature, Increase_Temperature, Decrease_Temperature,
      Button_INIT, hp]
  have up : toInt16 (g.setPoint + 1) = g.setPoint + 1 ∨ ¬ g.setPoint < 99 := by
    by_cases c : g.setPoint < 99
    · exact Or.inl (toInt16_of_range _ (by omega) (by omega))
    · exact Or.inr c
  have dn : toInt16 (g.setPoint - 1) = g.setPoint - 1 :=
    toInt16_of_range _ (by omega) (by omega)
  have e2 : adjustSetPointTemperature X g
      = (Button_INIT,
          { g with
            setPoint :=
              if X = Increase_Temperature then
                (if g.setPoint < 99 then g.setPoint + 1 else g.setPoint)
              else (if g.setPoint > 0 then g.setPoint - 1 else g.setPoint),
            Button_State := Button_INIT }) := by
    rcases hX with h | h
    · subst h
      rcases up with u | u
      · simp only [adjustSetPointTemperature, Increase_Temperature, u]
        split_ifs <;> simp_all
      · simp only [adjustSetPointTemperature, Increase_Temperature]
        split_ifs <;> simp_all
    · subst h
      simp only [adjustSetPointTemperature, Increase_Temperature, Decrease_Temperature, dn]
      split_ifs <;> simp_all
  refine ⟨e1, e2, ?_⟩
  intro n
  rw [e2]
  exact setPointRun_idle _ rfl n

/-- C19 witness: a Decrease pressed at set-point 20 gives 20 after the first
invocation, 19 after the second and 19 after five more. -/
theorem C19_press_applied_once_by_second_invocation_witness :
    adjustSetPointTemperature Button_INIT
        { initialGlobals with Button_State := Decrease_Temperature }
      = (Decrease_Temperature, { initialGlobals with Button_State := Decrease_Temperature })
    ∧ (adjustSetPointTemperature Decrease_Temperature
        { initialGlobals with Button_State := Decrease_Temperature }).2.setPoint = 19
    ∧ (setPointRun (adjustSetPointTemperature Decrease_Temperature
          { initialGlobals with Button_State := Decrease_Temperature })
        (List.replicate 5 .invoke)).2.setPoint = 19 :=
  ⟨(C19_press_applied_once_by_second_invocation
      { initialGlobals with Button_State := Decrease_Temperature } Decrease_Temperature
      (Or.inr rfl) rfl (by decide) (by decide)).1,
   by decide, by decide⟩

/-! ## Temperature task: transitions -/

theorem getAmbientTemperature_read_fst (io : I2CResult) (g : Globals) :
    (getAmbientTemperature io Read_Temperature g).1 = Read_Temperature := by
  simp [getAmbientTemperature, Read_Temperature, Temperature_Sensor_INIT]

theorem getAmbientTemperature_read (io : I2CResult) (g : Globals) :
    getAmbientTemperature io Read_Temperature g
      = (Read_Temperature, { (readTemp io g).2 with ambientTemperature := (readTemp io g).1 }) := by
  simp [getAmbientTemperature, Read_Temperature, Temperature_Sensor_INIT]

theorem temperatureRun_read_fst (ios : List I2CResult) (g : Globals) :
    (temperatureRun (Read_Temperature, g) ios).1 = Read_Temperature := by
  induction ios generalizing g with
  | nil => rfl
  | cons io rest ih =>
    rw [temperatureRun, List.foldl_cons]
    show (temperatureRun (getAmbientTemperature io Read_Temperature g) rest).1 = _
    rw [getAmbientTemperature_read]
    exact ih _

/-- C16: the Temperature step from `Temperature_Sensor_INIT` returns
`Read_Temperature`, whatever a transfer would have delivered (it performs
none), and leaves the ambient temperature and every other global unchanged;
from `Read_Temperature` it stores what `readTemp` returns and returns
`Read_Temperature`, whether the transfer succeeds or fails; so after any
number of further invocations the task is still in `Read_Temperature`. -/
theorem C16_temperature_transitions :
    (∀ (io : I2CResult) (g : Globals),
        getAmbientTemperature io Temperature_Sensor_INIT g = (Read_Temperature, g))
    ∧ (∀ (b0 b1 : Nat) (g : Globals),
        getAmbientTemperature (.ok b0 b1) Read_Temperature g
          = (Read_Temperature,
              { g with ambientTemperature := (readTemp (.ok b0 b1) g).1 }))
    ∧ (∀ (status : Int) (g : Globals),
        (getAmbientTemperature (.fail status) Read_Temperature g).1 = Read_Temperature)
    ∧ (∀ (ios : List I2CResult) (g : Globals),
        (temperatureRun (Read_Temperature, g) ios).1 = Read_Temperature)
    ∧ (∀ (io : I2CResult) (ios : List I2CResult) (g : Globals),
        (temperatureRun (Temperature_Sensor_INIT, g) (io :: ios)).1 = Read_Temperature) := by
  refine ⟨?_, ?_, ?_, temperatureRun_read_fst, ?_⟩
  · intro io g
    simp [getAmbientTemperature]
  · intro b0 b1 g
    rw [getAmbientTemperature_read]
    have e : (readTemp (.ok b0 b1) g).2 = g := by
      simp only [readTemp]; split_ifs <;> rfl
    rw [e]
  · intro status g
    exact getAmbientTemperature_read_fst _ g
  · intro io ios g
    rw [temperatureRun, List.foldl_cons]
    show (temperatureRun (getAmbientTemperature io Temperature_Sensor_INIT g) ios).1 = _
    have e : getAmbientTemperature io Temperature_Sensor_INIT g = (Read_Temperature, g) := by
      simp [getAmbientTemperature]
    rw [e]
    exact temperatureRun_read_fst ios g

/-- C20: for raw sensor bytes `hi`, `lo` with the top bit of `hi` set, let
`q` be the raw register read as a signed 16-bit integer,
`256 * hi + lo - 65536`, divided by 128 with truncation toward zero. Then
`q` lies in [-256, 0], a successful read returns `q` when `q ≠ 0` and -4096
when `q = 0`, which happens exactly for the raw values `0xFF81` to `0xFFFF`,
and the returned value is negative in every case. -/
theorem C20_negative_reading_value (hi lo : Nat) (g : Globals) (h1 : 0x80 ≤ hi)
    (h2 : hi < 256) (hlo : lo < 256) :
    -256 ≤ Int.tdiv (((256 * hi + lo : Nat) : Int) - 65536) 128
    ∧ Int.tdiv (((256 * hi + lo : Nat) : Int) - 65536) 128 ≤ 0
    ∧ (readTemp (.ok hi lo) g).1
        = (if Int.tdiv (((256 * hi + lo : Nat) : Int) - 65536) 128 = 0 then -4096
            else Int.tdiv (((256 * hi + lo : Nat) : Int) - 65536) 128)
    ∧ (Int.tdiv (((256 * hi + lo : Nat) : Int) - 65536) 128 = 0
        ↔ 0xFF81 ≤ 256 * hi + lo)
    ∧ (readTemp (.ok hi lo) g).1 < 0 := by
  have hq : Int.tdiv (((256 * hi + lo : Nat) : Int) - 65536) 128
      = -(((65536 - (256 * hi + lo)) / 128 : Nat) : Int) := by
    have e : (((256 * hi + lo : Nat) : Int) - 65536)
        = -((65536 - (256 * hi + lo) : Nat) : Int) := by omega
    rw [e, Int.neg_tdiv, Int.tdiv_eq_ediv (by omega) (by omega)]
    norm_cast
  rw [hq, readTemp_negative hi lo g h1 h2 hlo]
  refine ⟨by omega, by omega, ?_, by omega, ?_⟩
  · show (if (65536 - (256 * hi + lo)) / 128 = 0 then (-4096 : Int)
        else -(((65536 - (256 * hi + lo)) / 128 : Nat) : Int)) = _
    by_cases c : (65536 - (256 * hi + lo)) / 128 = 0
    · rw [if_pos c, if_pos (by omega)]
    · rw [if_neg c, if_neg (by omega)]
  · show (if (65536 - (256 * hi + lo)) / 128 = 0 then (-4096 : Int)
        else -(((65536 - (256 * hi + lo)) / 128 : Nat) : Int)) < 0
    split_ifs <;> omega

/-- C20 witness: the bytes `{0xFF, 0x81}` (raw `0xFF81`, `q = 0`) decode to
-4096, the bytes `{0xC9, 0x00}` (`q = -110`) to -110. -/
theorem C20_negative_reading_value_witness :
    (readTemp (.ok 0xFF 0x81) initialGlobals).1 = -4096
    ∧ (readTemp (.ok 0xC9 0x00) initialGlobals).1 = -110
    ∧ (readTemp (.ok 0xFF 0x81) initialGlobals).1 < 0 :=
  ⟨by decide, by decide,
   (C20_negative_reading_value 0xFF 0x81 initialGlobals (by decide) (by decide)
      (by decide)).2.2.2.2⟩

/-! ## Heat-mode task: the seconds counter -/

/-- What a Heat-Mode step that passes its guard sends and how it counts. -/
theorem setHeatMode_acting (state : Int) (g : Globals) (hne : g.seconds ≠ 0)
    (hlo : -2147483648 ≤ g.seconds) (hhi : g.seconds < 2147483647) :
    (setHeatMode state g).2.uart = g.uart ++
        [DISPLAY (reportLine g.ambientTemperature g.setPoint
          (if g.ambientTemperature < g.setPoint then HEAT_ON else HEAT_OFF) g.seconds)]
    ∧ (setHeatMode state g).2.seconds = g.seconds + 1 := by
  have hw : toInt32 (g.seconds + 1) = g.seconds + 1 :=
    toInt32_of_range _ (by omega) (by omega)
  unfold setHeatMode
  split_ifs <;> simp [hw]

/-- Heat-Mode invocations entered with a positive counter `m`: the counter
advances by one per invocation and the reports carry `m`, `m + 1`, ... -/
theorem heatRun_counting (inputs : List (Int × Int × Int)) (g : Globals) (m : Nat)
    (hm : g.seconds = m) (hpos : 1 ≤ m) (hb : m + inputs.length ≤ 2147483647) :
    (heatRun g inputs).seconds = ((m + inputs.length : Nat) : Int)
    ∧ (heatRun g inputs).uart = g.uart ++ reportsFrom m inputs := by
  induction inputs generalizing g m with
  | nil => simp [heatRun, reportsFrom, hm]
  | cons x rest ih =>
    obtain ⟨st, a, sp⟩ := x
    simp only [List.length_cons] at hb
    have hact := setHeatMode_acting st { g with ambientTemperature := a, setPoint := sp }
      (by show g.seconds ≠ 0; omega) (by show _ ≤ g.seconds; omega)
      (by show g.seconds < _; omega)
    have hs : (setHeatMode st { g with ambientTemperature := a, setPoint := sp }).2.seconds
        = ((m + 1 : Nat) : Int) := by
      rw [hact.2]; show g.seconds + 1 = _; omega
    obtain ⟨i1, i2⟩ := ih _ (m + 1) hs (by omega) (by omega)
    refine ⟨?_, ?_⟩
    · rw [heatRun, i1]; simp only [List.length_cons]; congr 1; omega
    · rw [heatRun, i2, hact.1]
      show g.uart ++ _ ++ _ = g.uart ++ reportsFrom (↑m) ((st, a, sp) :: rest)
      rw [reportsFrom, List.append_assoc, hm]
      simp

/-- Entry number `j` of `reportsFrom m` carries the elapsed value `m + j`. -/
theorem reportsFrom_get (l : List (Int × Int × Int)) (m : Int) (j : Nat)
    (x : Int × Int × Int) (h : l[j]? = some x) :
    (reportsFrom m l)[j]? = some (DISPLAY (reportLine x.2.1 x.2.2
      (if x.2.1 < x.2.2 then HEAT_ON else HEAT_OFF) (m + j))) := by
  induction l generalizing m j with
  | nil => simp at h
  | cons y rest ih =>
    obtain ⟨st, a, sp⟩ := y
    cases j with
    | zero =>
      simp only [List.getElem?_cons_zero, Option.some.injEq] at h
      subst h
      simp [reportsFrom]
    | succ j =>
      simp only [List.getElem?_cons_succ] at h
      have := ih (m + 1) j h
      simp only [reportsFrom, List.getElem?_cons_succ, this]
      congr 3
      push_cast
      omega


theorem adjust_seconds (state : Int) (g : Globals) :
    (adjustSetPointTemperature state g).2.seconds = g.seconds := by
  simp only [adjustSetPointTemperature]
  split_ifs <;> rfl

theorem adjust_led (state : Int) (g : Globals) :
    (adjustSetPointTemperature state g).2.led = g.led := by
  simp only [adjustSetPointTemperature]
  split_ifs <;> rfl

theorem readTemp_seconds_led (io : I2CResult) (g : Globals) :
    (readTemp io g).2.seconds = g.seconds ∧ (readTemp io g).2.led = g.led := by
  cases io with
  | ok b0 b1 => simp only [readTemp]; split_ifs <;> exact ⟨rfl, rfl⟩
  | fail status => exact ⟨rfl, rfl⟩

theorem getAmbientTemperature_seconds (io : I2CResult) (state : Int) (g : Globals) :
    (getAmbientTemperature io state g).2.seconds = g.seconds := by
  simp only [getAmbientTemperature]
  split_ifs
  · rfl
  · exact (readTemp_seconds_led io g).1
  · rfl

theorem getAmbientTemperature_led (io : I2CResult) (state : Int) (g : Globals) :
    (getAmbientTemperature io state g).2.led = g.led := by
  simp only [getAmbientTemperature]
  split_ifs
  · rfl
  · exact (readTemp_seconds_led io g).2
  · rfl

theorem setHeatMode_seconds (state : Int) (g : Globals) :
    (setHeatMode state g).2.seconds = toInt32 (g.seconds + 1) := by
  simp only [setHeatMode]
  split_ifs <;> rfl

/-- The counter after execution number `k` of the loop body. -/
theorem loopBody_seconds (io : I2CResult) (k : Nat) (s : System)
    (h : TasksAfter k s.tasks) :
    (loopBody io s).g.seconds
      = if k % 10 = 0 then toInt32 (s.g.seconds + 1) else s.g.seconds := by
  obtain ⟨s0, s1, s2, hts⟩ := h
  rw [loopBody_g io k s s0 s1 s2 hts]
  split_ifs <;>
    simp only [setHeatMode_seconds, getAmbientTemperature_seconds, adjust_seconds]

/-- The counter along any sequence of events, below the overflow bound. -/
theorem run_seconds (evs : List Event) (k : Nat) (s : System)
    (h : TasksAfter k s.tasks) (hs : s.g.seconds = (((k + 9) / 10 : Nat) : Int))
    (hb : (k + ticks evs + 9) / 10 ≤ 2147483647) :
    (run s evs).g.seconds = (((k + ticks evs + 9) / 10 : Nat) : Int) := by
  induction evs generalizing k s with
  | nil => simpa [run, ticks] using hs
  | cons e es ih =>
    cases e with
    | increaseButton =>
      have hb1 : (k + ticks es + 9) / 10 ≤ 2147483647 := by
        simpa [ticks, Event.isTick] using hb
      simpa [run, ticks, step, Event.isTick] using
        ih k { s with g := gpioIncreaseTemperatureCallback s.g } h hs hb1
    | decreaseButton =>
      have hb1 : (k + ticks es + 9) / 10 ≤ 2147483647 := by
        simpa [ticks, Event.isTick] using hb
      simpa [run, ticks, step, Event.isTick] using
        ih k { s with g := gpioDecreaseTemperatureCallback s.g } h hs hb1
    | tick io =>
      have e : k + ticks (Event.tick io :: es) = k + 1 + ticks es := by
        simp [ticks, Event.isTick]; omega
      rw [e] at hb ⊢
      have h1 := (loopBody_tasksAfter io k s h).1
      have hs1 : (loopBody io s).g.seconds = (((k + 1 + 9) / 10 : Nat) : Int) := by
        rw [loopBody_seconds io k s h, hs]
        by_cases c : k % 10 = 0
        · rw [if_pos c, toInt32_of_range _ (by omega) (by omega)]
          omega
        · rw [if_neg c]
          omega
      simpa [run, step] using ih (k + 1) (loopBody io s) h1 hs1 hb

/-- C15: `seconds` counts Heat-Mode invocations. From `seconds = 0`, after
`n` invocations (`n` below the overflow bound of `int`), whatever states are
passed in and whatever the set-point and ambient temperature are at each
invocation, `seconds = n`; the first invocation sends nothing and invocation
number `k ≥ 1` (counted from 0) sends the report number `k`, whose elapsed
field is `k`. In the running system `seconds` is the number of invocations of
the Heat-Mode task. -/
theorem C15_seconds_counts_invocations (g : Globals) (inputs : List (Int × Int × Int))
    (h0 : g.seconds = 0) (hb : inputs.length ≤ 2147483647) :
    (heatRun g inputs).seconds = (inputs.length : Int)
    ∧ (heatRun g inputs).uart = g.uart ++ reportsFrom 1 inputs.tail
    ∧ (∀ (k : Nat) (x : Int × Int × Int), 1 ≤ k → inputs[k]? = some x →
        (reportsFrom 1 inputs.tail)[k - 1]? = some (DISPLAY (reportLine x.2.1 x.2.2
          (if x.2.1 < x.2.2 then HEAT_ON else HEAT_OFF) k)))
    ∧ (∀ evs : List Event, (ticks evs + 9) / 10 ≤ 2147483647 →
        (run startup evs).g.seconds = ((run startup evs).calls.count 2 : Nat)) := by
  refine ⟨?_, ?_, ?_, ?_⟩
  · cases inputs with
    | nil => simpa [heatRun] using h0
    | cons x rest =>
      obtain ⟨st, a, sp⟩ := x
      simp only [List.length_cons] at hb
      have e : setHeatMode st { g with ambientTemperature := a, setPoint := sp }
          = (st, { g with ambientTemperature := a, setPoint := sp, seconds := 1 }) := by
        simp [setHeatMode, h0, toInt32]
      rw [heatRun, e]
      have := (heatRun_counting rest
        { g with ambientTemperature := a, setPoint := sp, seconds := 1 } 1 rfl
        (by omega) (by omega)).1
      rw [this]
      simp only [List.length_cons]
      push_cast
      omega
  · cases inputs with
    | nil => simp [heatRun, reportsFrom]
    | cons x rest =>
      obtain ⟨st, a, sp⟩ := x
      simp only [List.length_cons] at hb
      have e : setHeatMode st { g with ambientTemperature := a, setPoint := sp }
          = (st, { g with ambientTemperature := a, setPoint := sp, seconds := 1 }) := by
        simp [setHeatMode, h0, toInt32]
      rw [heatRun, e]
      exact (heatRun_counting rest
        { g with ambientTemperature := a, setPoint := sp, seconds := 1 } 1 rfl
        (by omega) (by omega)).2
  · intro k x hk hx
    cases inputs with
    | nil => simp at hx
    | cons y rest =>
      obtain ⟨j, rfl⟩ : ∃ j, k = j + 1 := ⟨k - 1, by omega⟩
      simp only [List.getElem?_cons_succ] at hx
      have := reportsFrom_get rest 1 j x hx
      simp only [List.tail_cons, Nat.add_sub_cancel, this]
      congr 3
      push_cast
      omega
  · intro evs hbe
    have hs := run_seconds evs 0 startup tasksAfter_startup (by decide)
      (by simpa using hbe)
    have hc := (run_counts evs 0 startup tasksAfter_startup
      ⟨by decide, by decide, by decide⟩).2.2
    rw [hs, hc]

/-- C15 witness: three invocations from the startup globals leave
`seconds = 3` and send the reports number 1 and 2. -/
theorem C15_seconds_counts_invocations_witness :
    (heatRun initialGlobals [(HEAT_INIT, 18, 20), (HEAT_INIT, 18, 20), (HEAT_ON, 21, 20)]).seconds
      = 3
    ∧ (heatRun initialGlobals
        [(HEAT_INIT, 18, 20), (HEAT_INIT, 18, 20), (HEAT_ON, 21, 20)]).uart
      = [{ data := "<18,20,1,0001>\n\r".toList, count := 16 },
         { data := "<21,20,0,0002>\n\r".toList, count := 16 }] :=
  ⟨(C15_seconds_counts_invocations initialGlobals
      [(HEAT_INIT, 18, 20), (HEAT_INIT, 18, 20), (HEAT_ON, 21, 20)] rfl (by decide)).1,
   by decide⟩

/-! ## Scheduler: states, order and accumulators -/

theorem tasksAfter_tasksAt (k : Nat) (s0 s1 s2 : Int) : TasksAfter k (tasksAt k s0 s1 s2) :=
  ⟨s0, s1, s2, rfl⟩

/-- The task list after execution number `k` of the loop body: a due task
stores what its function returned, the others keep their state. -/
theorem loopBody_tasks (io : I2CResult) (k : Nat) (s : System) (s0 s1 s2 : Int)
    (hts : s.tasks = tasksAt k s0 s1 s2) :
    (loopBody io s).tasks = tasksAt (k + 1)
      (if k % 2 = 0 then (adjustSetPointTemperature s0 s.g).1 else s0)
      (if k % 5 = 0 then
        (getAmbientTemperature io s1
          (if k % 2 = 0 then (adjustSetPointTemperature s0 s.g).2 else s.g)).1
       else s1)
      (if k % 10 = 0 then
        (setHeatMode s2
          (if k % 5 = 0 then
            (getAmbientTemperature io s1
              (if k % 2 = 0 then (adjustSetPointTemperature s0 s.g).2 else s.g)).2
          else (if k % 2 = 0 then (adjustSetPointTemperature s0 s.g).2 else s.g))).1
       else s2) := by
  have c0 : (100 * ((k + 1) % 2) + 100 ≥ 200) ↔ k % 2 = 0 := by omega
  have c1 : (100 * ((k + 4) % 5) + 100 ≥ 500) ↔ k % 5 = 0 := by omega
  have c2 : (100 * ((k + 9) % 10) + 100 ≥ 1000) ↔ k % 10 = 0 := by omega
  simp only [loopBody, hts, tasksAt, forTasks, tickTask, timerPeriod, toULong, c0, c1, c2]
  by_cases h0 : k % 2 = 0 <;> by_cases h1 : k % 5 = 0 <;> by_cases h2 : k % 10 = 0 <;>
    simp only [h0, h1, h2, if_true, if_false]
  all_goals
    simp only [List.cons.injEq, task.mk.injEq, and_true, true_and]
    refine ⟨?_, ?_, ?_⟩
    · omega
    · first | omega | (rw [Nat.mod_eq_of_lt (by omega)]; omega)
    · first | omega | (rw [Nat.mod_eq_of_lt (by omega)]; omega)


theorem getAmbientTemperature_fst_of (io : I2CResult) (s1 : Int) (g : Globals)
    (h : s1 = Read_Temperature ∨ s1 = Temperature_Sensor_INIT) :
    (getAmbientTemperature io s1 g).1 = Read_Temperature := by
  rcases h with h | h
  · rw [h]; exact getAmbientTemperature_read_fst io g
  · rw [h]; simp [getAmbientTemperature]

/-- Along any sequence of events the Temperature task stores
`Read_Temperature` as soon as the loop body has been executed once. -/
theorem run_temperature_state (evs : List Event) (k : Nat) (s : System)
    (h : ∃ s0 s1 s2, s.tasks = tasksAt k s0 s1 s2
      ∧ (s1 = Read_Temperature ∨ (k = 0 ∧ s1 = Temperature_Sensor_INIT))) :
    ∃ s0 s1 s2, (run s evs).tasks = tasksAt (k + ticks evs) s0 s1 s2
      ∧ (s1 = Read_Temperature ∨ (k + ticks evs = 0 ∧ s1 = Temperature_Sensor_INIT)) := by
  induction evs generalizing k s with
  | nil => simpa [run, ticks] using h
  | cons e es ih =>
    cases e with
    | increaseButton =>
      simpa [run, ticks, step, Event.isTick] using
        ih k { s with g := gpioIncreaseTemperatureCallback s.g } h
    | decreaseButton =>
      simpa [run, ticks, step, Event.isTick] using
        ih k { s with g := gpioDecreaseTemperatureCallback s.g } h
    | tick io =>
      obtain ⟨s0, s1, s2, hts, hs1⟩ := h
      have e : k + ticks (Event.tick io :: es) = k + 1 + ticks es := by
        simp [ticks, Event.isTick]; omega
      rw [e]
      have hnext := loopBody_tasks io k s s0 s1 s2 hts
      have hread : (if k % 5 = 0 then
          (getAmbientTemperature io s1
            (if k % 2 = 0 then (adjustSetPointTemperature s0 s.g).2 else s.g)).1
          else s1) = Read_Temperature := by
        by_cases c : k % 5 = 0
        · rw [if_pos c]
          exact getAmbientTemperature_fst_of io s1 _
            (hs1.elim Or.inl (fun h => Or.inr h.2))
        · rw [if_neg c]
          rcases hs1 with h | h
          · exact h
          · exact absurd (by rw [h.1]) c
      rw [hread] at hnext
      have := ih (k + 1) (loopBody io s) ⟨_, _, _, hnext, Or.inl rfl⟩
      simpa [run, step] using this

theorem mem_dueAt (k : Nat) :
    (0 ∈ dueAt k ↔ k % 2 = 0) ∧ (1 ∈ dueAt k ↔ k % 5 = 0) ∧ (2 ∈ dueAt k ↔ k % 10 = 0) := by
  unfold dueAt
  by_cases h0 : k % 2 = 0 <;> by_cases h1 : k % 5 = 0 <;> by_cases h2 : k % 10 = 0 <;>
    simp [h0, h1, h2]

theorem dueAt_all (k : Nat) (h : k % 10 = 0) : dueAt k = [0, 1, 2] := by
  have h0 : k % 2 = 0 := by omega
  have h1 : k % 5 = 0 := by omega
  simp [dueAt, h, h0, h1]

/-- C18: from the task list built at startup, in execution number `k` of the
loop body (`k = 0, 1, 2, ...`, whatever the buttons and the sensor do) the
Set-Point task is invoked iff `k` is a multiple of 2, the Temperature task
iff `k` is a multiple of 5 and the Heat-Mode task iff `k` is a multiple of
10; the Set-Point and Temperature tasks are invoked in the same execution
exactly when `k` is a multiple of 10, which is exactly when all three are. -/
theorem C18_firing_pattern (evs : List Event) (io : I2CResult) :
    (loopBody io (run startup evs)).calls = (run startup evs).calls ++ dueAt (ticks evs)
    ∧ (0 ∈ dueAt (ticks evs) ↔ ticks evs % 2 = 0)
    ∧ (1 ∈ dueAt (ticks evs) ↔ ticks evs % 5 = 0)
    ∧ (2 ∈ dueAt (ticks evs) ↔ ticks evs % 10 = 0)
    ∧ ((0 ∈ dueAt (ticks evs) ∧ 1 ∈ dueAt (ticks evs)) ↔ ticks evs % 10 = 0)
    ∧ ((0 ∈ dueAt (ticks evs) ∧ 1 ∈ dueAt (ticks evs)) ↔ dueAt (ticks evs) = [0, 1, 2]) := by
  have hT := run_tasksAfter evs 0 startup tasksAfter_startup
  rw [Nat.zero_add] at hT
  obtain ⟨m0, m1, m2⟩ := mem_dueAt (ticks evs)
  refine ⟨(loopBody_tasksAfter io _ _ hT).2, m0, m1, m2, ?_, ?_⟩
  · rw [m0, m1]; omega
  · rw [m0, m1]
    constructor
    · intro h; exact dueAt_all _ (by omega)
    · intro h
      have : 2 ∈ dueAt (ticks evs) := by rw [h]; simp
      rw [m2] at this
      omega

/-- C18 witness: execution number 10 invokes all three tasks, execution
number 4 the Set-Point task only. -/
theorem C18_firing_pattern_witness :
    (loopBody (.ok 5 0) (run startup (List.replicate 10 (Event.tick (.ok 5 0))))).calls
      = (run startup (List.replicate 10 (Event.tick (.ok 5 0)))).calls ++ [0, 1, 2]
    ∧ dueAt 4 = [0] :=
  ⟨(C18_firing_pattern (List.replicate 10 (Event.tick (.ok 5 0))) (.ok 5 0)).1.trans
    (by decide), by decide⟩

/-- C14: from the task list built at startup, after any number of executions
of the loop body (whatever the buttons and the sensor do) every task has
`100 ≤ elapsedTime ≤ period`, so whenever a task is due its accumulator is at
most `period + 99` (it equals `period`); a task is invoked exactly when
`elapsedTime ≥ period`; and one execution of the loop body takes each
accumulator to 0 if the task was invoked and then adds `timerPeriod = 100`,
leaving the periods alone. -/
theorem C14_elapsed_time_bounds (evs : List Event) (io : I2CResult) :
    (∀ t ∈ (run startup evs).tasks,
        100 ≤ t.elapsedTime ∧ t.elapsedTime ≤ t.period
        ∧ (t.elapsedTime ≥ t.period → t.elapsedTime ≤ t.period + timerPeriod - 1))
    ∧ (∃ a b c : task, (run startup evs).tasks = [a, b, c]
        ∧ a.period = checkButtonPeriod ∧ b.period = checkTemperaturePeriod
        ∧ c.period = HeatAndServerPeriod
        ∧ (loopBody io (run startup evs)).calls
            = (run startup evs).calls ++ dueAt (ticks evs)
        ∧ (0 ∈ dueAt (ticks evs) ↔ a.elapsedTime ≥ a.period)
        ∧ (1 ∈ dueAt (ticks evs) ↔ b.elapsedTime ≥ b.period)
        ∧ (2 ∈ dueAt (ticks evs) ↔ c.elapsedTime ≥ c.period))
    ∧ (loopBody io (run startup evs)).tasks.map (fun t => t.elapsedTime)
        = (run startup evs).tasks.map
            (fun t => (if t.elapsedTime ≥ t.period then 0 else t.elapsedTime) + timerPeriod)
    ∧ (loopBody io (run startup evs)).tasks.map (fun t => t.period)
        = (run startup evs).tasks.map (fun t => t.period) := by
  have hT := run_tasksAfter evs 0 startup tasksAfter_startup
  rw [Nat.zero_add] at hT
  obtain ⟨hN, hcalls⟩ := loopBody_tasksAfter io _ _ hT
  obtain ⟨s0, s1, s2, hts⟩ := hT
  obtain ⟨n0, n1, n2, hnext⟩ := hN
  obtain ⟨m0, m1, m2⟩ := mem_dueAt (ticks evs)
  refine ⟨?_, ⟨_, _, _, hts, rfl, rfl, rfl, hcalls, ?_, ?_, ?_⟩, ?_, ?_⟩
  · intro t ht
    rw [hts] at ht
    simp only [List.mem_cons, List.mem_singleton, List.not_mem_nil, or_false] at ht
    rcases ht with h | h | h <;> subst h <;> simp only [timerPeriod] <;> omega
  · rw [m0]; show _ ↔ 100 * ((ticks evs + 1) % 2) + 100 ≥ 200; omega
  · rw [m1]; show _ ↔ 100 * ((ticks evs + 4) % 5) + 100 ≥ 500; omega
  · rw [m2]; show _ ↔ 100 * ((ticks evs + 9) % 10) + 100 ≥ 1000; omega
  · rw [hnext, hts]
    simp only [List.map_cons, List.map_nil, timerPeriod, List.cons.injEq, and_true]
    refine ⟨?_, ?_, ?_⟩ <;> split_ifs <;> omega
  · rw [hnext, hts]
    rfl

/-- C14 witness: after seven executions of the loop body the accumulators
are 100, 200 and 700. -/
theorem C14_elapsed_time_bounds_witness :
    (run startup (List.replicate 7 (Event.tick (.ok 5 0)))).tasks.map (fun t => t.elapsedTime)
      = [100, 200, 700]
    ∧ ∀ t ∈ (run startup (List.replicate 7 (Event.tick (.ok 5 0)))).tasks,
        100 ≤ t.elapsedTime ∧ t.elapsedTime ≤ t.period
        ∧ (t.elapsedTime ≥ t.period → t.elapsedTime ≤ t.period + timerPeriod - 1) :=
  ⟨by decide,
   (C14_elapsed_time_bounds (List.replicate 7 (Event.tick (.ok 5 0))) (.ok 5 0)).1⟩

/-! ## Scheduler: order of the tasks within one cycle -/

theorem sublist_dueAt (k : Nat) : List.Sublist (dueAt k) [0, 1, 2] := by
  unfold dueAt
  by_cases h0 : k % 2 = 0 <;> by_cases h1 : k % 5 = 0 <;> by_cases h2 : k % 10 = 0 <;>
    simp only [h0, h1, h2, if_true, if_false] <;> decide

/-- What the Heat-Mode step decides and sends when its guard passes. -/
theorem setHeatMode_decision (state : Int) (g : Globals) (hne : g.seconds ≠ 0) :
    (setHeatMode state g).1
        = (if g.ambientTemperature < g.setPoint then HEAT_ON else HEAT_OFF)
    ∧ (setHeatMode state g).2.uart = g.uart ++
        [DISPLAY (reportLine g.ambientTemperature g.setPoint
          (if g.ambientTemperature < g.setPoint then HEAT_ON else HEAT_OFF) g.seconds)] := by
  unfold setHeatMode
  split_ifs <;> simp

/-- C13: within one execution of the loop body the due tasks are invoked in
the list order Set-Point, Temperature, Heat-Mode. When all three are due
(execution number `k` a multiple of 10) the Heat-Mode step runs on the
globals left by the Temperature step, which ran on those left by the
Set-Point step; so with `seconds ≠ 0` its decision and its report use the
set-point written by the Set-Point step and the ambient temperature written
by the Temperature step of that same execution. -/
theorem C13_list_order_within_cycle (io : I2CResult) (k : Nat) (s : System)
    (s0 s1 s2 : Int) (hts : s.tasks = tasksAt k s0 s1 s2) :
    (loopBody io s).calls = s.calls ++ dueAt k
    ∧ List.Sublist (dueAt k) [0, 1, 2]
    ∧ (k % 10 = 0 →
        (loopBody io s).calls = s.calls ++ [0, 1, 2]
        ∧ (loopBody io s).g
            = (setHeatMode s2 (getAmbientTemperature io s1
                (adjustSetPointTemperature s0 s.g).2).2).2
        ∧ (loopBody io s).tasks = tasksAt (k + 1)
            (adjustSetPointTemperature s0 s.g).1
            (getAmbientTemperature io s1 (adjustSetPointTemperature s0 s.g).2).1
            (setHeatMode s2 (getAmbientTemperature io s1
                (adjustSetPointTemperature s0 s.g).2).2).1
        ∧ (s.g.seconds ≠ 0 →
            (setHeatMode s2 (getAmbientTemperature io s1
                (adjustSetPointTemperature s0 s.g).2).2).1
              = (if (getAmbientTemperature io s1
                      (adjustSetPointTemperature s0 s.g).2).2.ambientTemperature
                    < (adjustSetPointTemperature s0 s.g).2.setPoint
                 then HEAT_ON else HEAT_OFF)
            ∧ (loopBody io s).g.uart
              = (getAmbientTemperature io s1 (adjustSetPointTemperature s0 s.g).2).2.uart ++
                [DISPLAY (reportLine
                  (getAmbientTemperature io s1
                    (adjustSetPointTemperature s0 s.g).2).2.ambientTemperature
                  (adjustSetPointTemperature s0 s.g).2.setPoint
                  (if (getAmbientTemperature io s1
                        (adjustSetPointTemperature s0 s.g).2).2.ambientTemperature
                      < (adjustSetPointTemperature s0 s.g).2.setPoint
                   then HEAT_ON else HEAT_OFF)
                  s.g.seconds)])) := by
  have hT : TasksAfter k s.tasks := ⟨s0, s1, s2, hts⟩
  have hcalls := (loopBody_tasksAfter io k s hT).2
  refine ⟨hcalls, sublist_dueAt k, ?_⟩
  intro h10
  have h2 : k % 2 = 0 := by omega
  have h5 : k % 5 = 0 := by omega
  have hg := loopBody_g io k s s0 s1 s2 hts
  have htk := loopBody_tasks io k s s0 s1 s2 hts
  simp only [h2, h5, h10, if_true] at hg htk
  refine ⟨by rw [hcalls, dueAt_all k h10], hg, htk, ?_⟩
  intro hsec
  have hne : (getAmbientTemperature io s1
      (adjustSetPointTemperature s0 s.g).2).2.seconds ≠ 0 := by
    rw [getAmbientTemperature_seconds, adjust_seconds]; exact hsec
  have hd := setHeatMode_decision s2 _ hne
  rw [getAmbientTemperature_setPoint, getAmbientTemperature_seconds, adjust_seconds] at hd
  exact ⟨hd.1, by rw [hg]; exact hd.2⟩

/-- The task list the example run reaches. -/
theorem latchedIncreaseRun_tasks : (run startup latchedIncreaseRun).tasks
    = tasksAt 20 Increase_Temperature Read_Temperature HEAT_OFF := by
  rfl

/-- C13 witness: a run from startup reaches execution number 20 with a
latched Increase, set-point 18 and `seconds = 2`; with a successful read of
18 in that execution, all three tasks run in list order, the set-point
becomes 19 and the report is `<18,19,1,0002>`: heat on. -/
theorem C13_list_order_within_cycle_witness :
    (run startup latchedIncreaseRun).g.setPoint = 18
    ∧ (loopBody (.ok 9 0) (run startup latchedIncreaseRun)).calls
        = (run startup latchedIncreaseRun).calls ++ [0, 1, 2]
    ∧ (loopBody (.ok 9 0) (run startup latchedIncreaseRun)).g.setPoint = 19
    ∧ (loopBody (.ok 9 0) (run startup latchedIncreaseRun)).g.ambientTemperature = 18
    ∧ (loopBody (.ok 9 0) (run startup latchedIncreaseRun)).g.uart.getLast?
        = some { data := "<18,19,1,0002>\n\r".toList, count := 16 }
    ∧ (loopBody (.ok 9 0) (run startup latchedIncreaseRun)).tasks.map (fun t => t.state)
        = [Button_INIT, Read_Temperature, HEAT_ON] :=
  ⟨by decide,
   ((C13_list_order_within_cycle (.ok 9 0) 20 (run startup latchedIncreaseRun)
      Increase_Temperature Read_Temperature HEAT_OFF latchedIncreaseRun_tasks).2.2
      (by decide)).1,
   by decide, by decide, by decide, by decide⟩

/-! ## The first-invocation guard of the Heat-Mode task -/

/-- The Heat-Mode step writes the LED exactly when its guard passes. -/
theorem setHeatMode_led (state : Int) (g : Globals) :
    (setHeatMode state g).2.led
      = if g.seconds ≠ 0 then
          g.led ++ [if g.ambientTemperature < g.setPoint then LedLevel.CONFIG_GPIO_LED_ON
                    else LedLevel.CONFIG_GPIO_LED_OFF]
        else g.led := by
  unfold setHeatMode
  split_ifs <;> simp

/-- C17: from the state built at startup, whatever the buttons and the
sensor do: if the Heat-Mode step passes its guard in an execution of the loop
body (it then compares, writes the LED and sends a report; the LED log
grows), that execution has a number `k ≥ 10` that is a multiple of 10, the
Temperature task has been invoked at least twice in earlier executions and
stores `Read_Temperature`, and in this same execution it is invoked in
`Read_Temperature` before the Heat-Mode step, so that the ambient
temperature the decision uses is the value `readTemp` returned for this
execution's transfer. -/
theorem C17_decision_follows_a_read (evs : List Event) (io : I2CResult)
    (hact : (loopBody io (run startup evs)).g.led ≠ (run startup evs).g.led) :
    10 ≤ ticks evs ∧ ticks evs % 10 = 0
    ∧ 2 ≤ (run startup evs).calls.count 1
    ∧ (loopBody io (run startup evs)).calls = (run startup evs).calls ++ [0, 1, 2]
    ∧ ∃ s0 s2 : Int,
        (run startup evs).tasks = tasksAt (ticks evs) s0 Read_Temperature s2
        ∧ (loopBody io (run startup evs)).g
            = (setHeatMode s2 (getAmbientTemperature io Read_Temperature
                (adjustSetPointTemperature s0 (run startup evs).g).2).2).2
        ∧ (loopBody io (run startup evs)).g.ambientTemperature
            = (readTemp io (adjustSetPointTemperature s0 (run startup evs).g).2).1 := by
  obtain ⟨s0, s1, s2, hts, hs1⟩ := run_temperature_state evs 0 startup
    ⟨Button_INIT, Temperature_Sensor_INIT, HEAT_INIT, rfl, Or.inr ⟨rfl, rfl⟩⟩
  rw [Nat.zero_add] at hts hs1
  have hT : TasksAfter (ticks evs) (run startup evs).tasks := ⟨s0, s1, s2, hts⟩
  have hg := loopBody_g io (ticks evs) (run startup evs) s0 s1 s2 hts
  have hcalls := (loopBody_tasksAfter io _ _ hT).2
  have hcount := (run_counts evs 0 startup tasksAfter_startup
    ⟨by decide, by decide, by decide⟩).2.1
  rw [Nat.zero_add] at hcount
  -- the LED log can only grow in an execution whose number is a multiple of 10
  have h10 : ticks evs % 10 = 0 := by
    by_contra c
    apply hact
    rw [hg, if_neg c]
    split_ifs <;> simp only [getAmbientTemperature_led, adjust_led]
  have h2 : ticks evs % 2 = 0 := by omega
  have h5 : ticks evs % 5 = 0 := by omega
  simp only [h2, h5, h10, if_true] at hg
  -- and not in execution number 0, where `seconds` is still 0
  have hk : ticks evs ≠ 0 := by
    intro c
    apply hact
    have hsec := run_seconds evs 0 startup tasksAfter_startup (by decide)
      (by rw [c]; decide)
    rw [Nat.zero_add, c] at hsec
    have hz : (getAmbientTemperature io s1
        (adjustSetPointTemperature s0 (run startup evs).g).2).2.seconds = 0 := by
      rw [getAmbientTemperature_seconds, adjust_seconds, hsec]; rfl
    rw [hg, setHeatMode_led, if_neg (by rw [hz]; simp), getAmbientTemperature_led,
      adjust_led]
  have hread : s1 = Read_Temperature := by
    rcases hs1 with h | h
    · exact h
    · exact absurd h.1 hk
  subst hread
  refine ⟨by omega, h10, by rw [hcount]; omega, by rw [hcalls, dueAt_all _ h10],
    s0, s2, hts, hg, ?_⟩
  rw [hg]
  have : (setHeatMode s2 (getAmbientTemperature io Read_Temperature
      (adjustSetPointTemperature s0 (run startup evs).g).2).2).2.ambientTemperature
      = (getAmbientTemperature io Read_Temperature
      (adjustSetPointTemperature s0 (run startup evs).g).2).2.ambientTemperature := by
    simp only [setHeatMode]
    split_ifs <;> rfl
  rw [this, getAmbientTemperature_read]

/-- C17 witness: the first execution in which the LED is written is number
10; by then the Temperature task has been invoked twice. -/
theorem C17_decision_follows_a_read_witness :
    10 ≤ ticks (List.replicate 10 (Event.tick (.ok 9 0)))
    ∧ 2 ≤ (run startup (List.replicate 10 (Event.tick (.ok 9 0)))).calls.count 1
    ∧ (run startup (List.replicate 10 (Event.tick (.ok 9 0)))).g.led = []
    ∧ (loopBody (.ok 9 0) (run startup (List.replicate 10 (Event.tick (.ok 9 0))))).g.led
        = [LedLevel.CONFIG_GPIO_LED_ON] :=
  ⟨(C17_decision_follows_a_read (List.replicate 10 (Event.tick (.ok 9 0))) (.ok 9 0)
      (by decide)).1,
   (C17_decision_follows_a_read (List.replicate 10 (Event.tick (.ok 9 0))) (.ok 9 0)
      (by decide)).2.2.1,
   by decide, by decide⟩

end GpioInterrupt
